import Mathlib

/-!  Verification of the snake game engine (`src/game.rs`).

The Rust engine is shallowly embedded.  `Vec<Cell>` becomes `List Cell`,
`VecDeque<usize>` becomes `List Nat` (front of the deque = head of the list),
`usize` becomes `Nat`, with explicit wraparound where the source relies on
`wrapping_sub`.  The only impure operation, `place_food` (rejection sampling
with a global RNG), is modelled by the relation `PlaceFood`, relating a state
to any state obtained by turning one `Plain` cell into `Food` — exactly the
set of outcomes of the sampling loop.  Accordingly `new`, `from_string` and
`update` are each split into their deterministic part (a function, suffix
`Pre`) and a relation that composes the deterministic part with `PlaceFood`.
-/

namespace SnakeGame

/-- Cell type of a board position (`enum Cell`). -/
inductive Cell where
  | Plain
  | Snake
  | Wall
  | Food
deriving DecidableEq, Repr

/-- Movement direction (`enum Direction`); `None` means "no new input this tick". -/
inductive Direction where
  | Up
  | Down
  | Left
  | Right
  | None
deriving DecidableEq, Repr

/-- `struct Snake`: the body as board indices, front = head, back = tail. -/
structure Snake where
  coordinates : List Nat
  direction : Direction
deriving DecidableEq, Repr

/-- `struct Game`. -/
structure Game where
  cells : List Cell
  width : Nat
  height : Nat
  snake : Snake
  score : Nat
  game_over : Bool
  grow_on_eat : Bool
deriving DecidableEq, Repr

/-- The first wall loop of `Game::new`:
    `cells[x] = Wall; cells[x + (height-1)*width] = Wall` for `x < width`. -/
def setTopBottom (cells : List Cell) (width height : Nat) : List Cell :=
  (List.range width).foldl
    (fun cs x => (cs.set x Cell.Wall).set (x + (height - 1) * width) Cell.Wall) cells

/-- The second wall loop of `Game::new`:
    `cells[y*width] = Wall; cells[y*width + width - 1] = Wall` for `y < height`. -/
def setSides (cells : List Cell) (width height : Nat) : List Cell :=
  (List.range height).foldl
    (fun cs y => (cs.set (y * width) Cell.Wall).set (y * width + width - 1) Cell.Wall) cells

/-- `Game::new` up to (excluding) the final `place_food` call. -/
def newPre (width height : Nat) (grow_on_eat : Bool) : Game :=
  { cells := (setSides (setTopBottom (List.replicate (width * height) Cell.Plain)
                width height) width height).set (2 * width + 2) Cell.Snake
    width := width
    height := height
    snake := { coordinates := [2 * width + 2], direction := Direction.Right }
    score := 0
    game_over := false
    grow_on_eat := grow_on_eat }

/-- Writing `Food` at one index (the successful iteration of `place_food`). -/
def setFood (g : Game) (idx : Nat) : Game := { g with cells := g.cells.set idx Cell.Food }

/-- `Game::place_food`: the sampling loop exits at some index that holds
    `Plain` and marks it `Food`; every `Plain` index is a possible outcome. -/
def PlaceFood (g g' : Game) : Prop :=
  ∃ idx, g.cells[idx]? = some Cell.Plain ∧ g' = setFood g idx

/-- `Game::new`, including the food placement. -/
def New (width height : Nat) (grow_on_eat : Bool) (g : Game) : Prop :=
  PlaceFood (newPre width height grow_on_eat) g

/-- Rust's `str::split(sep)` on a character list (used for both the `'|'`
    split of the input and the `'x'` split of the dimension segment); like
    Rust's `split` it always yields at least one (possibly empty) piece. -/
def splitOn (sep : Char) : List Char → List (List Char)
  | [] => [[]]
  | c :: rest =>
    if c = sep then [] :: splitOn sep rest
    else
      match splitOn sep rest with
      | [] => [[c]]
      | hd :: tl => (c :: hd) :: tl

/-- Value of a decimal digit run (`usize` overflow is not modelled). -/
def digitsToNat (ds : List Char) : Nat :=
  ds.foldl (fun n c => n * 10 + (c.toNat - '0'.toNat)) 0

/-- `str::parse::<usize>()`: an optional leading `+`, then at least one
    decimal digit (overflow is not modelled). -/
def parseUsize (cs : List Char) : Option Nat :=
  let ds := match cs with
    | '+' :: rest => rest
    | _ => cs
  if ds ≠ [] ∧ ds.all Char.isDigit then some (digitsToNat ds) else none

/-- Decoder state of `from_string`'s cell loop: the cells emitted so far, the
    snake coordinates and the snake-found flag. -/
structure DecodeSt where
  cells : List Cell
  snakeCoords : List Nat
  snakeFound : Bool
deriving DecidableEq, Repr

/-- The digit run directly following a letter (the `peek` loop of
    `from_string`), together with the remaining characters. -/
def takeDigits : List Char → List Char × List Char
  | [] => ([], [])
  | c :: rest =>
    if c.isDigit then
      ((c :: (takeDigits rest).1), (takeDigits rest).2)
    else ([], c :: rest)

/-- `num_str.parse().unwrap_or(0)`: the collected digit run as a run-length,
    an empty run parsing to 0. -/
def runCount (ds : List Char) : Nat := (parseUsize ds).getD 0

/-- The `for _ in 0..count` emission loop of `from_string`. -/
def emitRun (cellType : Cell) : Nat → DecodeSt → Except String DecodeSt
  | 0, st => Except.ok st
  | n + 1, st =>
    if cellType = Cell.Snake then
      if st.snakeFound then Except.error "Multiple snakes"
      else emitRun cellType n
        { cells := st.cells ++ [cellType]
          snakeCoords := st.cells.length :: st.snakeCoords
          snakeFound := true }
    else emitRun cellType n { st with cells := st.cells ++ [cellType] }

/-- The Unicode `Alphabetic` derived property, version 14.0.0, as its sorted
    list of inclusive codepoint ranges. -/
def alphabeticRanges : List (Nat × Nat) :=
  [
    (0x41, 0x5A), (0x61, 0x7A), (0xAA, 0xAA), (0xB5, 0xB5), (0xBA, 0xBA), (0xC0, 0xD6),
    (0xD8, 0xF6), (0xF8, 0x2C1), (0x2C6, 0x2D1), (0x2E0, 0x2E4), (0x2EC, 0x2EC), (0x2EE, 0x2EE),
    (0x345, 0x345), (0x370, 0x374), (0x376, 0x377), (0x37A, 0x37D), (0x37F, 0x37F), (0x386, 0x386),
    (0x388, 0x38A), (0x38C, 0x38C), (0x38E, 0x3A1), (0x3A3, 0x3F5), (0x3F7, 0x481), (0x48A, 0x52F),
    (0x531, 0x556), (0x559, 0x559), (0x560, 0x588), (0x5B0, 0x5BD), (0x5BF, 0x5BF), (0x5C1, 0x5C2),
    (0x5C4, 0x5C5), (0x5C7, 0x5C7), (0x5D0, 0x5EA), (0x5EF, 0x5F2), (0x610, 0x61A), (0x620, 0x657),
    (0x659, 0x65F), (0x66E, 0x6D3), (0x6D5, 0x6DC), (0x6E1, 0x6E8), (0x6ED, 0x6EF), (0x6FA, 0x6FC),
    (0x6FF, 0x6FF), (0x710, 0x73F), (0x74D, 0x7B1), (0x7CA, 0x7EA), (0x7F4, 0x7F5), (0x7FA, 0x7FA),
    (0x800, 0x817), (0x81A, 0x82C), (0x840, 0x858), (0x860, 0x86A), (0x870, 0x887), (0x889, 0x88E),
    (0x8A0, 0x8C9), (0x8D4, 0x8DF), (0x8E3, 0x8E9), (0x8F0, 0x93B), (0x93D, 0x94C), (0x94E, 0x950),
    (0x955, 0x963), (0x971, 0x983), (0x985, 0x98C), (0x98F, 0x990), (0x993, 0x9A8), (0x9AA, 0x9B0),
    (0x9B2, 0x9B2), (0x9B6, 0x9B9), (0x9BD, 0x9C4), (0x9C7, 0x9C8), (0x9CB, 0x9CC), (0x9CE, 0x9CE),
    (0x9D7, 0x9D7), (0x9DC, 0x9DD), (0x9DF, 0x9E3), (0x9F0, 0x9F1), (0x9FC, 0x9FC), (0xA01, 0xA03),
    (0xA05, 0xA0A), (0xA0F, 0xA10), (0xA13, 0xA28), (0xA2A, 0xA30), (0xA32, 0xA33), (0xA35, 0xA36),
    (0xA38, 0xA39), (0xA3E, 0xA42), (0xA47, 0xA48), (0xA4B, 0xA4C), (0xA51, 0xA51), (0xA59, 0xA5C),
    (0xA5E, 0xA5E), (0xA70, 0xA75), (0xA81, 0xA83), (0xA85, 0xA8D), (0xA8F, 0xA91), (0xA93, 0xAA8),
    (0xAAA, 0xAB0), (0xAB2, 0xAB3), (0xAB5, 0xAB9), (0xABD, 0xAC5), (0xAC7, 0xAC9), (0xACB, 0xACC),
    (0xAD0, 0xAD0), (0xAE0, 0xAE3), (0xAF9, 0xAFC), (0xB01, 0xB03), (0xB05, 0xB0C), (0xB0F, 0xB10),
    (0xB13, 0xB28), (0xB2A, 0xB30), (0xB32, 0xB33), (0xB35, 0xB39), (0xB3D, 0xB44), (0xB47, 0xB48),
    (0xB4B, 0xB4C), (0xB56, 0xB57), (0xB5C, 0xB5D), (0xB5F, 0xB63), (0xB71, 0xB71), (0xB82, 0xB83),
    (0xB85, 0xB8A), (0xB8E, 0xB90), (0xB92, 0xB95), (0xB99, 0xB9A), (0xB9C, 0xB9C), (0xB9E, 0xB9F),
    (0xBA3, 0xBA4), (0xBA8, 0xBAA), (0xBAE, 0xBB9), (0xBBE, 0xBC2), (0xBC6, 0xBC8), (0xBCA, 0xBCC),
    (0xBD0, 0xBD0), (0xBD7, 0xBD7), (0xC00, 0xC03), (0xC05, 0xC0C), (0xC0E, 0xC10), (0xC12, 0xC28),
    (0xC2A, 0xC39), (0xC3D, 0xC44), (0xC46, 0xC48), (0xC4A, 0xC4C), (0xC55, 0xC56), (0xC58, 0xC5A),
    (0xC5D, 0xC5D), (0xC60, 0xC63), (0xC80, 0xC83), (0xC85, 0xC8C), (0xC8E, 0xC90), (0xC92, 0xCA8),
    (0xCAA, 0xCB3), (0xCB5, 0xCB9), (0xCBD, 0xCC4), (0xCC6, 0xCC8), (0xCCA, 0xCCC), (0xCD5, 0xCD6),
    (0xCDD, 0xCDE), (0xCE0, 0xCE3), (0xCF1, 0xCF2), (0xD00, 0xD0C), (0xD0E, 0xD10), (0xD12, 0xD3A),
    (0xD3D, 0xD44), (0xD46, 0xD48), (0xD4A, 0xD4C), (0xD4E, 0xD4E), (0xD54, 0xD57), (0xD5F, 0xD63),
    (0xD7A, 0xD7F), (0xD81, 0xD83), (0xD85, 0xD96), (0xD9A, 0xDB1), (0xDB3, 0xDBB), (0xDBD, 0xDBD),
    (0xDC0, 0xDC6), (0xDCF, 0xDD4), (0xDD6, 0xDD6), (0xDD8, 0xDDF), (0xDF2, 0xDF3), (0xE01, 0xE3A),
    (0xE40, 0xE46), (0xE4D, 0xE4D), (0xE81, 0xE82), (0xE84, 0xE84), (0xE86, 0xE8A), (0xE8C, 0xEA3),
    (0xEA5, 0xEA5), (0xEA7, 0xEB9), (0xEBB, 0xEBD), (0xEC0, 0xEC4), (0xEC6, 0xEC6), (0xECD, 0xECD),
    (0xEDC, 0xEDF), (0xF00, 0xF00), (0xF40, 0xF47), (0xF49, 0xF6C), (0xF71, 0xF81), (0xF88, 0xF97),
    (0xF99, 0xFBC), (0x1000, 0x1036), (0x1038, 0x1038), (0x103B, 0x103F), (0x1050, 0x108F), (0x109A, 0x109D),
    (0x10A0, 0x10C5), (0x10C7, 0x10C7), (0x10CD, 0x10CD), (0x10D0, 0x10FA), (0x10FC, 0x1248), (0x124A, 0x124D),
    (0x1250, 0x1256), (0x1258, 0x1258), (0x125A, 0x125D), (0x1260, 0x1288), (0x128A, 0x128D), (0x1290, 0x12B0),
    (0x12B2, 0x12B5), (0x12B8, 0x12BE), (0x12C0, 0x12C0), (0x12C2, 0x12C5), (0x12C8, 0x12D6), (0x12D8, 0x1310),
    (0x1312, 0x1315), (0x1318, 0x135A), (0x1380, 0x138F), (0x13A0, 0x13F5), (0x13F8, 0x13FD), (0x1401, 0x166C),
    (0x166F, 0x167F), (0x1681, 0x169A), (0x16A0, 0x16EA), (0x16EE, 0x16F8), (0x1700, 0x1713), (0x171F, 0x1733),
    (0x1740, 0x1753), (0x1760, 0x176C), (0x176E, 0x1770), (0x1772, 0x1773), (0x1780, 0x17B3), (0x17B6, 0x17C8),
    (0x17D7, 0x17D7), (0x17DC, 0x17DC), (0x1820, 0x1878), (0x1880, 0x18AA), (0x18B0, 0x18F5), (0x1900, 0x191E),
    (0x1920, 0x192B), (0x1930, 0x1938), (0x1950, 0x196D), (0x1970, 0x1974), (0x1980, 0x19AB), (0x19B0, 0x19C9),
    (0x1A00, 0x1A1B), (0x1A20, 0x1A5E), (0x1A61, 0x1A74), (0x1AA7, 0x1AA7), (0x1ABF, 0x1AC0), (0x1ACC, 0x1ACE),
    (0x1B00, 0x1B33), (0x1B35, 0x1B43), (0x1B45, 0x1B4C), (0x1B80, 0x1BA9), (0x1BAC, 0x1BAF), (0x1BBA, 0x1BE5),
    (0x1BE7, 0x1BF1), (0x1C00, 0x1C36), (0x1C4D, 0x1C4F), (0x1C5A, 0x1C7D), (0x1C80, 0x1C88), (0x1C90, 0x1CBA),
    (0x1CBD, 0x1CBF), (0x1CE9, 0x1CEC), (0x1CEE, 0x1CF3), (0x1CF5, 0x1CF6), (0x1CFA, 0x1CFA), (0x1D00, 0x1DBF),
    (0x1DE7, 0x1DF4), (0x1E00, 0x1F15), (0x1F18, 0x1F1D), (0x1F20, 0x1F45), (0x1F48, 0x1F4D), (0x1F50, 0x1F57),
    (0x1F59, 0x1F59), (0x1F5B, 0x1F5B), (0x1F5D, 0x1F5D), (0x1F5F, 0x1F7D), (0x1F80, 0x1FB4), (0x1FB6, 0x1FBC),
    (0x1FBE, 0x1FBE), (0x1FC2, 0x1FC4), (0x1FC6, 0x1FCC), (0x1FD0, 0x1FD3), (0x1FD6, 0x1FDB), (0x1FE0, 0x1FEC),
    (0x1FF2, 0x1FF4), (0x1FF6, 0x1FFC), (0x2071, 0x2071), (0x207F, 0x207F), (0x2090, 0x209C), (0x2102, 0x2102),
    (0x2107, 0x2107), (0x210A, 0x2113), (0x2115, 0x2115), (0x2119, 0x211D), (0x2124, 0x2124), (0x2126, 0x2126),
    (0x2128, 0x2128), (0x212A, 0x212D), (0x212F, 0x2139), (0x213C, 0x213F), (0x2145, 0x2149), (0x214E, 0x214E),
    (0x2160, 0x2188), (0x24B6, 0x24E9), (0x2C00, 0x2CE4), (0x2CEB, 0x2CEE), (0x2CF2, 0x2CF3), (0x2D00, 0x2D25),
    (0x2D27, 0x2D27), (0x2D2D, 0x2D2D), (0x2D30, 0x2D67), (0x2D6F, 0x2D6F), (0x2D80, 0x2D96), (0x2DA0, 0x2DA6),
    (0x2DA8, 0x2DAE), (0x2DB0, 0x2DB6), (0x2DB8, 0x2DBE), (0x2DC0, 0x2DC6), (0x2DC8, 0x2DCE), (0x2DD0, 0x2DD6),
    (0x2DD8, 0x2DDE), (0x2DE0, 0x2DFF), (0x2E2F, 0x2E2F), (0x3005, 0x3007), (0x3021, 0x3029), (0x3031, 0x3035),
    (0x3038, 0x303C), (0x3041, 0x3096), (0x309D, 0x309F), (0x30A1, 0x30FA), (0x30FC, 0x30FF), (0x3105, 0x312F),
    (0x3131, 0x318E), (0x31A0, 0x31BF), (0x31F0, 0x31FF), (0x3400, 0x4DBF), (0x4E00, 0xA48C), (0xA4D0, 0xA4FD),
    (0xA500, 0xA60C), (0xA610, 0xA61F), (0xA62A, 0xA62B), (0xA640, 0xA66E), (0xA674, 0xA67B), (0xA67F, 0xA6EF),
    (0xA717, 0xA71F), (0xA722, 0xA788), (0xA78B, 0xA7CA), (0xA7D0, 0xA7D1), (0xA7D3, 0xA7D3), (0xA7D5, 0xA7D9),
    (0xA7F2, 0xA805), (0xA807, 0xA827), (0xA840, 0xA873), (0xA880, 0xA8C3), (0xA8C5, 0xA8C5), (0xA8F2, 0xA8F7),
    (0xA8FB, 0xA8FB), (0xA8FD, 0xA8FF), (0xA90A, 0xA92A), (0xA930, 0xA952), (0xA960, 0xA97C), (0xA980, 0xA9B2),
    (0xA9B4, 0xA9BF), (0xA9CF, 0xA9CF), (0xA9E0, 0xA9EF), (0xA9FA, 0xA9FE), (0xAA00, 0xAA36), (0xAA40, 0xAA4D),
    (0xAA60, 0xAA76), (0xAA7A, 0xAABE), (0xAAC0, 0xAAC0), (0xAAC2, 0xAAC2), (0xAADB, 0xAADD), (0xAAE0, 0xAAEF),
    (0xAAF2, 0xAAF5), (0xAB01, 0xAB06), (0xAB09, 0xAB0E), (0xAB11, 0xAB16), (0xAB20, 0xAB26), (0xAB28, 0xAB2E),
    (0xAB30, 0xAB5A), (0xAB5C, 0xAB69), (0xAB70, 0xABEA), (0xAC00, 0xD7A3), (0xD7B0, 0xD7C6), (0xD7CB, 0xD7FB),
    (0xF900, 0xFA6D), (0xFA70, 0xFAD9), (0xFB00, 0xFB06), (0xFB13, 0xFB17), (0xFB1D, 0xFB28), (0xFB2A, 0xFB36),
    (0xFB38, 0xFB3C), (0xFB3E, 0xFB3E), (0xFB40, 0xFB41), (0xFB43, 0xFB44), (0xFB46, 0xFBB1), (0xFBD3, 0xFD3D),
    (0xFD50, 0xFD8F), (0xFD92, 0xFDC7), (0xFDF0, 0xFDFB), (0xFE70, 0xFE74), (0xFE76, 0xFEFC), (0xFF21, 0xFF3A),
    (0xFF41, 0xFF5A), (0xFF66, 0xFFBE), (0xFFC2, 0xFFC7), (0xFFCA, 0xFFCF), (0xFFD2, 0xFFD7), (0xFFDA, 0xFFDC),
    (0x10000, 0x1000B), (0x1000D, 0x10026), (0x10028, 0x1003A), (0x1003C, 0x1003D), (0x1003F, 0x1004D), (0x10050, 0x1005D),
    (0x10080, 0x100FA), (0x10140, 0x10174), (0x10280, 0x1029C), (0x102A0, 0x102D0), (0x10300, 0x1031F), (0x1032D, 0x1034A),
    (0x10350, 0x1037A), (0x10380, 0x1039D), (0x103A0, 0x103C3), (0x103C8, 0x103CF), (0x103D1, 0x103D5), (0x10400, 0x1049D),
    (0x104B0, 0x104D3), (0x104D8, 0x104FB), (0x10500, 0x10527), (0x10530, 0x10563), (0x10570, 0x1057A), (0x1057C, 0x1058A),
    (0x1058C, 0x10592), (0x10594, 0x10595), (0x10597, 0x105A1), (0x105A3, 0x105B1), (0x105B3, 0x105B9), (0x105BB, 0x105BC),
    (0x10600, 0x10736), (0x10740, 0x10755), (0x10760, 0x10767), (0x10780, 0x10785), (0x10787, 0x107B0), (0x107B2, 0x107BA),
    (0x10800, 0x10805), (0x10808, 0x10808), (0x1080A, 0x10835), (0x10837, 0x10838), (0x1083C, 0x1083C), (0x1083F, 0x10855),
    (0x10860, 0x10876), (0x10880, 0x1089E), (0x108E0, 0x108F2), (0x108F4, 0x108F5), (0x10900, 0x10915), (0x10920, 0x10939),
    (0x10980, 0x109B7), (0x109BE, 0x109BF), (0x10A00, 0x10A03), (0x10A05, 0x10A06), (0x10A0C, 0x10A13), (0x10A15, 0x10A17),
    (0x10A19, 0x10A35), (0x10A60, 0x10A7C), (0x10A80, 0x10A9C), (0x10AC0, 0x10AC7), (0x10AC9, 0x10AE4), (0x10B00, 0x10B35),
    (0x10B40, 0x10B55), (0x10B60, 0x10B72), (0x10B80, 0x10B91), (0x10C00, 0x10C48), (0x10C80, 0x10CB2), (0x10CC0, 0x10CF2),
    (0x10D00, 0x10D27), (0x10E80, 0x10EA9), (0x10EAB, 0x10EAC), (0x10EB0, 0x10EB1), (0x10F00, 0x10F1C), (0x10F27, 0x10F27),
    (0x10F30, 0x10F45), (0x10F70, 0x10F81), (0x10FB0, 0x10FC4), (0x10FE0, 0x10FF6), (0x11000, 0x11045), (0x11071, 0x11075),
    (0x11082, 0x110B8), (0x110C2, 0x110C2), (0x110D0, 0x110E8), (0x11100, 0x11132), (0x11144, 0x11147), (0x11150, 0x11172),
    (0x11176, 0x11176), (0x11180, 0x111BF), (0x111C1, 0x111C4), (0x111CE, 0x111CF), (0x111DA, 0x111DA), (0x111DC, 0x111DC),
    (0x11200, 0x11211), (0x11213, 0x11234), (0x11237, 0x11237), (0x1123E, 0x1123E), (0x11280, 0x11286), (0x11288, 0x11288),
    (0x1128A, 0x1128D), (0x1128F, 0x1129D), (0x1129F, 0x112A8), (0x112B0, 0x112E8), (0x11300, 0x11303), (0x11305, 0x1130C),
    (0x1130F, 0x11310), (0x11313, 0x11328), (0x1132A, 0x11330), (0x11332, 0x11333), (0x11335, 0x11339), (0x1133D, 0x11344),
    (0x11347, 0x11348), (0x1134B, 0x1134C), (0x11350, 0x11350), (0x11357, 0x11357), (0x1135D, 0x11363), (0x11400, 0x11441),
    (0x11443, 0x11445), (0x11447, 0x1144A), (0x1145F, 0x11461), (0x11480, 0x114C1), (0x114C4, 0x114C5), (0x114C7, 0x114C7),
    (0x11580, 0x115B5), (0x115B8, 0x115BE), (0x115D8, 0x115DD), (0x11600, 0x1163E), (0x11640, 0x11640), (0x11644, 0x11644),
    (0x11680, 0x116B5), (0x116B8, 0x116B8), (0x11700, 0x1171A), (0x1171D, 0x1172A), (0x11740, 0x11746), (0x11800, 0x11838),
    (0x118A0, 0x118DF), (0x118FF, 0x11906), (0x11909, 0x11909), (0x1190C, 0x11913), (0x11915, 0x11916), (0x11918, 0x11935),
    (0x11937, 0x11938), (0x1193B, 0x1193C), (0x1193F, 0x11942), (0x119A0, 0x119A7), (0x119AA, 0x119D7), (0x119DA, 0x119DF),
    (0x119E1, 0x119E1), (0x119E3, 0x119E4), (0x11A00, 0x11A32), (0x11A35, 0x11A3E), (0x11A50, 0x11A97), (0x11A9D, 0x11A9D),
    (0x11AB0, 0x11AF8), (0x11C00, 0x11C08), (0x11C0A, 0x11C36), (0x11C38, 0x11C3E), (0x11C40, 0x11C40), (0x11C72, 0x11C8F),
    (0x11C92, 0x11CA7), (0x11CA9, 0x11CB6), (0x11D00, 0x11D06), (0x11D08, 0x11D09), (0x11D0B, 0x11D36), (0x11D3A, 0x11D3A),
    (0x11D3C, 0x11D3D), (0x11D3F, 0x11D41), (0x11D43, 0x11D43), (0x11D46, 0x11D47), (0x11D60, 0x11D65), (0x11D67, 0x11D68),
    (0x11D6A, 0x11D8E), (0x11D90, 0x11D91), (0x11D93, 0x11D96), (0x11D98, 0x11D98), (0x11EE0, 0x11EF6), (0x11FB0, 0x11FB0),
    (0x12000, 0x12399), (0x12400, 0x1246E), (0x12480, 0x12543), (0x12F90, 0x12FF0), (0x13000, 0x1342E), (0x14400, 0x14646),
    (0x16800, 0x16A38), (0x16A40, 0x16A5E), (0x16A70, 0x16ABE), (0x16AD0, 0x16AED), (0x16B00, 0x16B2F), (0x16B40, 0x16B43),
    (0x16B63, 0x16B77), (0x16B7D, 0x16B8F), (0x16E40, 0x16E7F), (0x16F00, 0x16F4A), (0x16F4F, 0x16F87), (0x16F8F, 0x16F9F),
    (0x16FE0, 0x16FE1), (0x16FE3, 0x16FE3), (0x16FF0, 0x16FF1), (0x17000, 0x187F7), (0x18800, 0x18CD5), (0x18D00, 0x18D08),
    (0x1AFF0, 0x1AFF3), (0x1AFF5, 0x1AFFB), (0x1AFFD, 0x1AFFE), (0x1B000, 0x1B122), (0x1B150, 0x1B152), (0x1B164, 0x1B167),
    (0x1B170, 0x1B2FB), (0x1BC00, 0x1BC6A), (0x1BC70, 0x1BC7C), (0x1BC80, 0x1BC88), (0x1BC90, 0x1BC99), (0x1BC9E, 0x1BC9E),
    (0x1D400, 0x1D454), (0x1D456, 0x1D49C), (0x1D49E, 0x1D49F), (0x1D4A2, 0x1D4A2), (0x1D4A5, 0x1D4A6), (0x1D4A9, 0x1D4AC),
    (0x1D4AE, 0x1D4B9), (0x1D4BB, 0x1D4BB), (0x1D4BD, 0x1D4C3), (0x1D4C5, 0x1D505), (0x1D507, 0x1D50A), (0x1D50D, 0x1D514),
    (0x1D516, 0x1D51C), (0x1D51E, 0x1D539), (0x1D53B, 0x1D53E), (0x1D540, 0x1D544), (0x1D546, 0x1D546), (0x1D54A, 0x1D550),
    (0x1D552, 0x1D6A5), (0x1D6A8, 0x1D6C0), (0x1D6C2, 0x1D6DA), (0x1D6DC, 0x1D6FA), (0x1D6FC, 0x1D714), (0x1D716, 0x1D734),
    (0x1D736, 0x1D74E), (0x1D750, 0x1D76E), (0x1D770, 0x1D788), (0x1D78A, 0x1D7A8), (0x1D7AA, 0x1D7C2), (0x1D7C4, 0x1D7CB),
    (0x1DF00, 0x1DF1E), (0x1E000, 0x1E006), (0x1E008, 0x1E018), (0x1E01B, 0x1E021), (0x1E023, 0x1E024), (0x1E026, 0x1E02A),
    (0x1E100, 0x1E12C), (0x1E137, 0x1E13D), (0x1E14E, 0x1E14E), (0x1E290, 0x1E2AD), (0x1E2C0, 0x1E2EB), (0x1E7E0, 0x1E7E6),
    (0x1E7E8, 0x1E7EB), (0x1E7ED, 0x1E7EE), (0x1E7F0, 0x1E7FE), (0x1E800, 0x1E8C4), (0x1E900, 0x1E943), (0x1E947, 0x1E947),
    (0x1E94B, 0x1E94B), (0x1EE00, 0x1EE03), (0x1EE05, 0x1EE1F), (0x1EE21, 0x1EE22), (0x1EE24, 0x1EE24), (0x1EE27, 0x1EE27),
    (0x1EE29, 0x1EE32), (0x1EE34, 0x1EE37), (0x1EE39, 0x1EE39), (0x1EE3B, 0x1EE3B), (0x1EE42, 0x1EE42), (0x1EE47, 0x1EE47),
    (0x1EE49, 0x1EE49), (0x1EE4B, 0x1EE4B), (0x1EE4D, 0x1EE4F), (0x1EE51, 0x1EE52), (0x1EE54, 0x1EE54), (0x1EE57, 0x1EE57),
    (0x1EE59, 0x1EE59), (0x1EE5B, 0x1EE5B), (0x1EE5D, 0x1EE5D), (0x1EE5F, 0x1EE5F), (0x1EE61, 0x1EE62), (0x1EE64, 0x1EE64),
    (0x1EE67, 0x1EE6A), (0x1EE6C, 0x1EE72), (0x1EE74, 0x1EE77), (0x1EE79, 0x1EE7C), (0x1EE7E, 0x1EE7E), (0x1EE80, 0x1EE89),
    (0x1EE8B, 0x1EE9B), (0x1EEA1, 0x1EEA3), (0x1EEA5, 0x1EEA9), (0x1EEAB, 0x1EEBB), (0x1F130, 0x1F149), (0x1F150, 0x1F169),
    (0x1F170, 0x1F189), (0x20000, 0x2A6DF), (0x2A700, 0x2B738), (0x2B740, 0x2B81D), (0x2B820, 0x2CEA1), (0x2CEB0, 0x2EBE0),
    (0x2F800, 0x2FA1D), (0x30000, 0x3134A)
  ]

/-- Rust `char::is_alphabetic`: membership in the Unicode `Alphabetic`
    derived property (tabulated above from the version 14.0.0 character
    database). -/
def isAlphabetic (c : Char) : Bool :=
  alphabeticRanges.any (fun r => decide (r.1 ≤ c.toNat ∧ c.toNat ≤ r.2))

/-- The per-segment character loop of `Game::from_string` (lines 93–127). -/
def processChars (st : DecodeSt) : List Char → Except String DecodeSt
  | [] => Except.ok st
  | c :: rest =>
    if isAlphabetic c then
      match c with
      | 'W' =>
        match emitRun Cell.Wall (runCount (takeDigits rest).1) st with
        | Except.error e => Except.error e
        | Except.ok st' => processChars st' (takeDigits rest).2
      | 'E' =>
        match emitRun Cell.Plain (runCount (takeDigits rest).1) st with
        | Except.error e => Except.error e
        | Except.ok st' => processChars st' (takeDigits rest).2
      | 'S' =>
        match emitRun Cell.Snake (runCount (takeDigits rest).1) st with
        | Except.error e => Except.error e
        | Except.ok st' => processChars st' (takeDigits rest).2
      | _ => Except.error ("Unknown char " ++ c.toString)
    else processChars st rest
termination_by cs => cs.length
decreasing_by
  all_goals simp only [List.length_cons]
  all_goals
    first
    | omega
    | · have h2 : ∀ cs : List Char, (takeDigits cs).2.length ≤ cs.length := by
          intro cs
          induction cs with
          | nil => simp [takeDigits]
          | cons d ds ih =>
            by_cases hd : d.isDigit <;> simp [takeDigits, hd] <;> omega
        have h3 := h2 rest
        omega

/-- The tail-segment loop of `Game::from_string`
    (`for row_str in parts.iter().skip(1)`). -/
def processParts (st : DecodeSt) : List (List Char) → Except String DecodeSt
  | [] => Except.ok st
  | p :: rest =>
    match processChars st p with
    | Except.error e => Except.error e
    | Except.ok st' => processParts st' rest

/-- `Game::from_string` up to (excluding) the final `place_food` call. -/
def fromStringPre (compressed : String) (grow_on_eat : Bool) : Except String Game :=
  let parts := splitOn '|' compressed.toList
  if parts = [] then Except.error "Empty string"
  else
    match parts.headD [] with
    | 'B' :: dimsRest =>
      match splitOn 'x' dimsRest with
      | [hs, ws] =>
        match parseUsize hs with
        | Option.none => Except.error "Invalid height"
        | some height =>
          match parseUsize ws with
          | Option.none => Except.error "Invalid width"
          | some width =>
            match processParts { cells := [], snakeCoords := [], snakeFound := false }
                (parts.drop 1) with
            | Except.error e => Except.error e
            | Except.ok st =>
              if st.cells.length ≠ width * height then
                Except.error ("Dimension mismatch: expected " ++ toString (width * height)
                  ++ ", got " ++ toString st.cells.length)
              else if st.snakeFound = false then Except.error "No snake found"
              else Except.ok
                { cells := st.cells
                  width := width
                  height := height
                  snake := { coordinates := st.snakeCoords, direction := Direction.Right }
                  score := 0
                  game_over := false
                  grow_on_eat := grow_on_eat }
      | _ => Except.error "Invalid dimension format"
    | _ => Except.error "Invalid dimension format"

/-- `Game::from_string`, including the food placement on success. -/
def FromString (s : String) (grow_on_eat : Bool) (g : Game) : Prop :=
  ∃ g0, fromStringPre s grow_on_eat = Except.ok g0 ∧ PlaceFood g0 g

/-- The direction-resolution block of `Game::update` (lines 172–194). -/
def resolvedDir (g : Game) (input : Direction) : Direction :=
  let new_dir :=
    if g.snake.coordinates.length > 1 then
      match g.snake.direction, input with
      | Direction.Up, Direction.Down
      | Direction.Down, Direction.Up
      | Direction.Left, Direction.Right
      | Direction.Right, Direction.Left => g.snake.direction
      | Direction.None, _ => input
      | _, Direction.None => g.snake.direction
      | _, _ => input
    else input
  if new_dir = Direction.None then g.snake.direction else new_dir

/-- `2^64 - 1`, the value of `0usize.wrapping_sub(1)` on a 64-bit target. -/
def USIZE_MAX : Nat := 2 ^ 64 - 1

/-- `usize::wrapping_sub(1)` for arguments below `2^64`, which covers every
    value the program computes. -/
def wrapSub1 (n : Nat) : Nat := if n = 0 then USIZE_MAX else n - 1

/-- The head's next coordinates (`Game::update`, lines 198–208).  The source's
    `front().unwrap()` presumes a nonempty body (true in every state the
    engine constructs); the default `0` of `headD` is never read under that
    precondition. -/
def nextCoords (g : Game) (d : Direction) : Nat × Nat :=
  let head_x := g.snake.coordinates.headD 0 % g.width
  let head_y := g.snake.coordinates.headD 0 / g.width
  match d with
  | Direction.Up => (head_x, wrapSub1 head_y)
  | Direction.Down => (head_x, head_y + 1)
  | Direction.Left => (wrapSub1 head_x, head_y)
  | Direction.Right => (head_x + 1, head_y)
  | Direction.None => (head_x, head_y)

/-- `next_idx = next_y * width + next_x`. -/
def nextIdx (g : Game) (d : Direction) : Nat :=
  (nextCoords g d).2 * g.width + (nextCoords g d).1

/-- `self.cells[next_idx]`; in-range in every state the engine constructs,
    so the default is never read there. -/
def targetCell (g : Game) (d : Direction) : Cell :=
  g.cells.getD (nextIdx g d) Cell.Plain

/-- `self.snake.coordinates.back().unwrap()` (nonempty in every state the
    engine constructs). -/
def tailIdx (g : Game) : Nat := g.snake.coordinates.getLast?.getD 0

/-- `self.snake.direction = new_dir` (line 196). -/
def withDir (g : Game) (d : Direction) : Game :=
  { g with snake := { g.snake with direction := d } }

/-- `push_front(next_idx); cells[next_idx] = Snake` (lines 231–232). -/
def advanceGame (g : Game) (nidx : Nat) : Game :=
  { g with
    snake := { g.snake with coordinates := nidx :: g.snake.coordinates }
    cells := g.cells.set nidx Cell.Snake }

/-- `pop_back`, reset the popped cell to `Plain`, re-mark the head cell
    (lines 239–241 and 245–247). -/
def popTail (g : Game) (nidx : Nat) : Game :=
  { g with
    snake := { g.snake with coordinates := g.snake.coordinates.dropLast }
    cells := (g.cells.set (tailIdx g) Cell.Plain).set nidx Cell.Snake }

/-- The feeding branch of `Game::update` (lines 234–248); the `Bool` records
    whether `place_food` is then called. -/
def updateArrive (g : Game) (nidx : Nat) (is_food : Bool) : Game × Bool :=
  if is_food then
    if g.grow_on_eat then ({ g with score := g.score + 1 }, true)
    else ({ popTail g nidx with score := g.score + 1 }, true)
  else (popTail g nidx, false)

/-- Movement, bounds check, collision check and arrival (lines 198–248), on a
    state whose direction field already holds the resolved direction `d`. -/
def updateMove (g : Game) (d : Direction) : Game × Bool :=
  if (nextCoords g d).1 ≥ g.width ∨ (nextCoords g d).2 ≥ g.height then
    ({ g with game_over := true }, false)
  else if (targetCell g d = Cell.Wall ∨ targetCell g d = Cell.Snake) ∧
      nextIdx g d ≠ tailIdx g then
    ({ g with game_over := true }, false)
  else
    updateArrive (advanceGame g (nextIdx g d)) (nextIdx g d)
      (targetCell g d == Cell.Food)

/-- `Game::update` up to any `place_food` call: the state at that point and
    whether `place_food` is then invoked. -/
def updatePre (g : Game) (input : Direction) : Game × Bool :=
  if g.game_over then (g, false)
  else updateMove (withDir g (resolvedDir g input)) (resolvedDir g input)

/-- `Game::update`; the outcome of a `place_food` call is related, not
    computed. -/
def Update (g : Game) (input : Direction) (g' : Game) : Prop :=
  ((updatePre g input).2 = true ∧ PlaceFood (updatePre g input).1 g') ∨
  ((updatePre g input).2 = false ∧ g' = (updatePre g input).1)

/-- States reachable from a `new`-constructed game (under the documented
    `3 ≤ width`, `3 ≤ height` precondition) or a successfully decoded game by
    any sequence of `update` calls. -/
inductive Reachable : Game → Prop where
  | fromNew : ∀ width height grow g, 3 ≤ width → 3 ≤ height →
      New width height grow g → Reachable g
  | fromDecode : ∀ s grow g, FromString s grow g → Reachable g
  | step : ∀ g input g', Reachable g → Update g input g' → Reachable g'

/-- Membership in the border ring: row 0, row `height-1`, column 0 or column
    `width-1`, for a row-major index. -/
def IsBorder (width height i : Nat) : Prop :=
  i % width = 0 ∨ i % width = width - 1 ∨ i / width = 0 ∨ i / width = height - 1

instance (width height i : Nat) : Decidable (IsBorder width height i) := by
  unfold IsBorder
  infer_instance

/-- Body well-formedness: the board matches its dimensions and the body is a
    nonempty duplicate-free list of indices, each marked `Snake` on the board. -/
def Inv (g : Game) : Prop :=
  g.cells.length = g.width * g.height ∧
  g.snake.coordinates ≠ [] ∧
  g.snake.coordinates.Nodup ∧
  ∀ i ∈ g.snake.coordinates, g.cells[i]? = some Cell.Snake

/-- Invariant of the decoder state: before any `S` cell has been emitted the
    coordinate list is empty; afterwards it holds exactly the one emitted
    snake index, and that index holds `Snake` among the cells so far. -/
def StInv (st : DecodeSt) : Prop :=
  (st.snakeFound = false → st.snakeCoords = []) ∧
  (st.snakeFound = true →
    ∃ j, st.snakeCoords = [j] ∧ st.cells[j]? = some Cell.Snake)

/-- The four 180-degree current-direction/input pairs that `update` rejects
    for a body of length at least 2 (Up↔Down, Left↔Right). -/
def reversalPair (d input : Direction) : Prop :=
  (d = Direction.Up ∧ input = Direction.Down) ∨
  (d = Direction.Down ∧ input = Direction.Up) ∨
  (d = Direction.Left ∧ input = Direction.Right) ∨
  (d = Direction.Right ∧ input = Direction.Left)

instance (d input : Direction) : Decidable (reversalPair d input) := by
  unfold reversalPair
  infer_instance

/-- Concrete 3×3 state whose snake sits at index 5 (column 2, row 1): one
    `Right` step runs off the board (`next_x = 3 ≥ width`). -/
def gOffBoard : Game :=
  { cells := [Cell.Wall, Cell.Wall, Cell.Wall,
      Cell.Wall, Cell.Food, Cell.Snake,
      Cell.Wall, Cell.Wall, Cell.Wall]
    width := 3
    height := 3
    snake := { coordinates := [5], direction := Direction.Right }
    score := 0
    game_over := false
    grow_on_eat := false }

/-- Concrete 5×3 corridor with a two-segment snake moving `Right`; used to
    exercise the reversal-rejection rule with input `Left`. -/
def gRev : Game :=
  { cells := [Cell.Wall, Cell.Wall, Cell.Wall, Cell.Wall, Cell.Wall,
      Cell.Wall, Cell.Snake, Cell.Snake, Cell.Plain, Cell.Wall,
      Cell.Wall, Cell.Wall, Cell.Wall, Cell.Wall, Cell.Wall]
    width := 5
    height := 3
    snake := { coordinates := [7, 6], direction := Direction.Right }
    score := 0
    game_over := false
    grow_on_eat := false }

/-- Concrete 5×4 state whose four-segment snake is coiled in a square; moving
    `Down` from the head lands exactly on the current tail cell. -/
def gLoop : Game :=
  { cells := [Cell.Wall, Cell.Wall, Cell.Wall, Cell.Wall, Cell.Wall,
      Cell.Wall, Cell.Snake, Cell.Snake, Cell.Food, Cell.Wall,
      Cell.Wall, Cell.Snake, Cell.Snake, Cell.Plain, Cell.Wall,
      Cell.Wall, Cell.Wall, Cell.Wall, Cell.Wall, Cell.Wall]
    width := 5
    height := 4
    snake := { coordinates := [6, 7, 12, 11], direction := Direction.Left }
    score := 0
    game_over := false
    grow_on_eat := false }

/-- Concrete 5×5 state with a five-segment snake; moving `Up` from the head
    lands on a mid-body segment (index 7), not the tail (index 6). -/
def gMidBody : Game :=
  { cells := [Cell.Wall, Cell.Wall, Cell.Wall, Cell.Wall, Cell.Wall,
      Cell.Wall, Cell.Snake, Cell.Snake, Cell.Snake, Cell.Wall,
      Cell.Wall, Cell.Plain, Cell.Snake, Cell.Snake, Cell.Wall,
      Cell.Wall, Cell.Plain, Cell.Food, Cell.Plain, Cell.Wall,
      Cell.Wall, Cell.Wall, Cell.Wall, Cell.Wall, Cell.Wall]
    width := 5
    height := 5
    snake := { coordinates := [12, 13, 8, 7, 6], direction := Direction.Left }
    score := 0
    game_over := false
    grow_on_eat := false }

/-- Concrete 5×3 corridor in constant-length mode whose head is one `Right`
    step away from the Food at index 8; its tail is index 6. -/
def gEat : Game :=
  { cells := [Cell.Wall, Cell.Wall, Cell.Wall, Cell.Wall, Cell.Wall,
      Cell.Wall, Cell.Snake, Cell.Snake, Cell.Food, Cell.Wall,
      Cell.Wall, Cell.Wall, Cell.Wall, Cell.Wall, Cell.Wall]
    width := 5
    height := 3
    snake := { coordinates := [7, 6], direction := Direction.Right }
    score := 0
    game_over := false
    grow_on_eat := false }

/-- The state after `gEat` eats the Food at index 8 and the replacement Food
    happens to be placed on the just-vacated tail cell 6 (the only Plain cell). -/
def gEatAfter : Game := setFood (updatePre gEat Direction.Right).1 6

/-! ### Small projection lemmas -/

@[simp] theorem setFood_cells (g : Game) (idx : Nat) :
    (setFood g idx).cells = g.cells.set idx Cell.Food := rfl

@[simp] theorem setFood_snake (g : Game) (idx : Nat) : (setFood g idx).snake = g.snake := rfl

@[simp] theorem setFood_width (g : Game) (idx : Nat) : (setFood g idx).width = g.width := rfl

@[simp] theorem setFood_height (g : Game) (idx : Nat) : (setFood g idx).height = g.height := rfl

@[simp] theorem setFood_score (g : Game) (idx : Nat) : (setFood g idx).score = g.score := rfl

@[simp] theorem setFood_over (g : Game) (idx : Nat) :
    (setFood g idx).game_over = g.game_over := rfl

@[simp] theorem setFood_grow (g : Game) (idx : Nat) :
    (setFood g idx).grow_on_eat = g.grow_on_eat := rfl

/-! ### The two wall-writing loops of `Game::new`

Both loops write a fixed value `v` at indices `f x` and `g x` for `x` ranging
over a list; the next four lemmas characterise such a fold. -/

theorem set_getElem?_cases (cs : List Cell) (j i : Nat) (v : Cell) :
    (cs.set j v)[i]? = cs[i]? ∨ (cs.set j v)[i]? = some v := by
  by_cases hji : j = i
  · subst hji
    by_cases hi : j < cs.length
    · exact Or.inr (List.getElem?_set_self hi)
    · left
      rw [List.getElem?_eq_none (by simpa using not_lt.mp hi),
        List.getElem?_eq_none (not_lt.mp hi)]
  · exact Or.inl (List.getElem?_set_ne hji)

theorem foldl_set2_length (v : Cell) (f g : Nat → Nat) (l : List Nat) :
    ∀ cs : List Cell,
      (l.foldl (fun cs x => (cs.set (f x) v).set (g x) v) cs).length = cs.length := by
  induction l with
  | nil => intro cs; rfl
  | cons a t ih =>
    intro cs
    rw [List.foldl_cons, ih]
    simp

theorem foldl_set2_stable (v : Cell) (f g : Nat → Nat) (l : List Nat) :
    ∀ (cs : List Cell) (i : Nat),
      (l.foldl (fun cs x => (cs.set (f x) v).set (g x) v) cs)[i]? = cs[i]? ∨
      (l.foldl (fun cs x => (cs.set (f x) v).set (g x) v) cs)[i]? = some v := by
  induction l with
  | nil => intro cs i; exact Or.inl rfl
  | cons a t ih =>
    intro cs i
    rw [List.foldl_cons]
    rcases ih ((cs.set (f a) v).set (g a) v) i with h | h
    · rw [h]
      rcases set_getElem?_cases (cs.set (f a) v) (g a) i v with h2 | h2
      · rcases set_getElem?_cases cs (f a) i v with h3 | h3
        · exact Or.inl (h2.trans h3)
        · exact Or.inr (h2.trans h3)
      · exact Or.inr h2
    · exact Or.inr h

theorem foldl_set2_get_of_mem (v : Cell) (f g : Nat → Nat) (l : List Nat) :
    ∀ (cs : List Cell) (i x : Nat), x ∈ l → (f x = i ∨ g x = i) → i < cs.length →
      (l.foldl (fun cs x => (cs.set (f x) v).set (g x) v) cs)[i]? = some v := by
  induction l with
  | nil => intro cs i x hx; cases hx
  | cons a t ih =>
    intro cs i x hx hhit hi
    rw [List.foldl_cons]
    rcases List.mem_cons.mp hx with rfl | hxt
    · have hset : ((cs.set (f x) v).set (g x) v)[i]? = some v := by
        rcases hhit with hf | hg
        · subst hf
          by_cases hgi : g x = f x
          · rw [hgi]
            exact List.getElem?_set_self (by simpa using hi)
          · rw [List.getElem?_set_ne hgi]
            exact List.getElem?_set_self hi
        · subst hg
          exact List.getElem?_set_self (by simpa using hi)
      rcases foldl_set2_stable v f g t ((cs.set (f x) v).set (g x) v) i with h | h
      · rw [h, hset]
      · exact h
    · exact ih ((cs.set (f a) v).set (g a) v) i x hxt hhit (by simpa using hi)

theorem foldl_set2_get_of_ne (v : Cell) (f g : Nat → Nat) (l : List Nat) :
    ∀ (cs : List Cell) (i : Nat), (∀ x ∈ l, f x ≠ i ∧ g x ≠ i) →
      (l.foldl (fun cs x => (cs.set (f x) v).set (g x) v) cs)[i]? = cs[i]? := by
  induction l with
  | nil => intro cs i h; rfl
  | cons a t ih =>
    intro cs i h
    rw [List.foldl_cons, ih _ _ (fun x hx => h x (List.mem_cons_of_mem a hx)),
      List.getElem?_set_ne (h a (List.mem_cons_self a t)).2,
      List.getElem?_set_ne (h a (List.mem_cons_self a t)).1]

theorem foldl_set2_mem (v : Cell) (f g : Nat → Nat) (l : List Nat) :
    ∀ (cs : List Cell) (c : Cell),
      c ∈ l.foldl (fun cs x => (cs.set (f x) v).set (g x) v) cs → c ∈ cs ∨ c = v := by
  induction l with
  | nil => intro cs c hc; exact Or.inl hc
  | cons a t ih =>
    intro cs c hc
    rcases ih _ _ hc with h | h
    · rcases List.mem_or_eq_of_mem_set h with h2 | h2
      · rcases List.mem_or_eq_of_mem_set h2 with h3 | h3
        · exact Or.inl h3
        · exact Or.inr h3
      · exact Or.inr h2
    · exact Or.inr h

theorem setTopBottom_length (cs : List Cell) (w h : Nat) :
    (setTopBottom cs w h).length = cs.length :=
  foldl_set2_length Cell.Wall (fun x => x) (fun x => x + (h - 1) * w) (List.range w) cs

theorem setSides_length (cs : List Cell) (w h : Nat) :
    (setSides cs w h).length = cs.length :=
  foldl_set2_length Cell.Wall (fun y => y * w) (fun y => y * w + w - 1) (List.range h) cs

theorem newPre_cells_length (w h : Nat) (grow : Bool) :
    (newPre w h grow).cells.length = w * h := by
  show ((setSides (setTopBottom _ w h) w h).set (2 * w + 2) Cell.Snake).length = w * h
  rw [List.length_set, setSides_length, setTopBottom_length, List.length_replicate]

/-- Row-major coordinates of the fixed snake start `2*width + 2`. -/
theorem snake_pos_mod_div (w : Nat) (hw : 3 ≤ w) :
    (2 * w + 2) % w = 2 ∧ (2 * w + 2) / w = 2 := by
  have h1 : 2 * w + 2 = 2 + 2 * w := by ring
  constructor
  · rw [h1, Nat.add_mul_mod_self_right, Nat.mod_eq_of_lt (by omega)]
  · rw [h1, Nat.add_mul_div_right 2 2 (by omega), Nat.div_eq_of_lt (by omega)]

/-- For boards of width and height at least 4 the snake start is interior. -/
theorem snake_pos_not_border (w h : Nat) (hw : 4 ≤ w) (hh : 4 ≤ h) :
    ¬ IsBorder w h (2 * w + 2) := by
  obtain ⟨hm, hd⟩ := snake_pos_mod_div w (by omega)
  intro hb
  rw [IsBorder, hm, hd] at hb
  rcases hb with h1 | h1 | h1 | h1 <;> omega

/-- Every border-ring index of a `newPre` board holds `Wall` (width, height ≥ 4). -/
theorem newPre_border_wall (w h : Nat) (grow : Bool) (i : Nat)
    (hw : 4 ≤ w) (hh : 4 ≤ h) (hi : i < w * h) (hb : IsBorder w h i) :
    (newPre w h grow).cells[i]? = some Cell.Wall := by
  have hw0 : 0 < w := by omega
  have hne : 2 * w + 2 ≠ i := by
    intro heq
    exact snake_pos_not_border w h hw hh (heq ▸ hb)
  have hdm := Nat.div_add_mod i w
  have hdivlt : i / w < h := (Nat.div_lt_iff_lt_mul hw0).mpr (by rw [Nat.mul_comm h w]; exact hi)
  show (((setSides (setTopBottom _ w h) w h).set (2 * w + 2) Cell.Snake))[i]? = _
  rw [List.getElem?_set_ne hne]
  have hlen1 : (setTopBottom (List.replicate (w * h) Cell.Plain) w h).length = w * h := by
    rw [setTopBottom_length, List.length_replicate]
  have hmod : i % w < w := Nat.mod_lt i hw0
  have hc1 : w * (i / w) = i / w * w := Nat.mul_comm _ _
  have hc2 : w * (h - 1) = (h - 1) * w := Nat.mul_comm _ _
  by_cases hS : ∃ y, y < h ∧ (y * w = i ∨ y * w + w - 1 = i)
  · obtain ⟨y, hy, hhit⟩ := hS
    exact foldl_set2_get_of_mem Cell.Wall (fun y => y * w) (fun y => y * w + w - 1)
      (List.range h) _ i y (List.mem_range.mpr hy) hhit (by rw [hlen1]; exact hi)
  · push_neg at hS
    have hpass := foldl_set2_get_of_ne Cell.Wall (fun y => y * w) (fun y => y * w + w - 1)
      (List.range h) (setTopBottom (List.replicate (w * h) Cell.Plain) w h) i
      (fun y hy => hS y (List.mem_range.mp hy))
    have hTB : ∃ x, x < w ∧ (x = i ∨ x + (h - 1) * w = i) := by
      rcases hb with h1 | h1 | h1 | h1
      · exact absurd (by omega : i / w * w = i) (hS (i / w) hdivlt).1
      · exact absurd (by omega : i / w * w + w - 1 = i) (hS (i / w) hdivlt).2
      · refine ⟨i, ?_, Or.inl rfl⟩
        rw [h1] at hdm
        omega
      · refine ⟨i % w, hmod, Or.inr ?_⟩
        rw [h1] at hdm
        omega
    obtain ⟨x, hx, hhit⟩ := hTB
    have hres := foldl_set2_get_of_mem Cell.Wall (fun x => x) (fun x => x + (h - 1) * w)
      (List.range w) (List.replicate (w * h) Cell.Plain) i x (List.mem_range.mpr hx) hhit
      (by rw [List.length_replicate]; exact hi)
    exact hpass.trans hres

/-- A `newPre` board holds no `Food` cell anywhere. -/
theorem newPre_no_food (w h : Nat) (grow : Bool) (i : Nat) :
    (newPre w h grow).cells[i]? ≠ some Cell.Food := by
  intro hF
  obtain ⟨hlt, hget⟩ := List.getElem?_eq_some.mp hF
  have hmem : Cell.Food ∈ (newPre w h grow).cells := hget ▸ List.getElem_mem hlt
  have hmem1 : Cell.Food ∈ (setSides (setTopBottom (List.replicate (w * h) Cell.Plain) w h)
      w h).set (2 * w + 2) Cell.Snake := hmem
  rcases List.mem_or_eq_of_mem_set hmem1 with h1 | h1
  · rcases foldl_set2_mem Cell.Wall (fun y => y * w) (fun y => y * w + w - 1)
      (List.range h) _ _ h1 with h2 | h2
    · rcases foldl_set2_mem Cell.Wall (fun x => x) (fun x => x + (h - 1) * w)
        (List.range w) _ _ h2 with h3 | h3
      · exact absurd (List.eq_of_mem_replicate h3) (by simp)
      · exact Cell.noConfusion h3
    · exact Cell.noConfusion h2
  · exact Cell.noConfusion h1

/-- C1 (amended: the bounds `width ≥ 3`, `height ≥ 3` must be strengthened to
`width ≥ 4`, `height ≥ 4`): `new(width, height, grow_on_eat)` returns a game
whose entire border ring is Wall, whose snake is exactly one segment at the
interior index `2*width+2` with direction Right, score 0, `game_over` false,
and with exactly one Food cell, placed on a previously Plain cell. -/
theorem C1_new_board_amended (w h : Nat) (grow : Bool) (g : Game)
    (hw : 4 ≤ w) (hh : 4 ≤ h) (hnew : New w h grow g) :
    (∀ i < w * h, IsBorder w h i → g.cells[i]? = some Cell.Wall) ∧
    g.snake.coordinates = [2 * w + 2] ∧
    ¬ IsBorder w h (2 * w + 2) ∧
    g.snake.direction = Direction.Right ∧
    g.score = 0 ∧ g.game_over = false ∧
    ∃ j : Nat, (newPre w h grow).cells[j]? = some Cell.Plain ∧ g.cells[j]? = some Cell.Food ∧
      ∀ k : Nat, k ≠ j → g.cells[k]? ≠ some Cell.Food := by
  obtain ⟨idx, hidx, rfl⟩ := hnew
  obtain ⟨hidxlt, -⟩ := List.getElem?_eq_some.mp hidx
  refine ⟨?_, rfl, snake_pos_not_border w h hw hh, rfl, rfl, rfl, idx, hidx, ?_, ?_⟩
  · intro i hi hb
    have hwall := newPre_border_wall w h grow i hw hh hi hb
    have hne : idx ≠ i := by
      intro heq
      rw [heq, hwall] at hidx
      exact Cell.noConfusion (Option.some.inj hidx)
    rw [setFood_cells, List.getElem?_set_ne hne]
    exact hwall
  · rw [setFood_cells]
    exact List.getElem?_set_self hidxlt
  · intro k hk
    rw [setFood_cells, List.getElem?_set_ne (fun heq => hk heq.symm)]
    exact newPre_no_food w h grow k

/-- C1 counterexample: the claim quantifies over all `width ≥ 3`, `height ≥ 3`,
but at `width = height = 3` the snake start `2*3+2 = 8` lies on the border
ring (row 2 = height−1) and overwrites its Wall, so the border ring is not
entirely Wall and the snake is not at an interior cell. -/
theorem C1_new_board_cex :
    New 3 3 false (setFood (newPre 3 3 false) 4) ∧
    IsBorder 3 3 (2 * 3 + 2) ∧
    (setFood (newPre 3 3 false) 4).cells[2 * 3 + 2]? = some Cell.Snake ∧
    ¬ (∀ i < 3 * 3, IsBorder 3 3 i →
        (setFood (newPre 3 3 false) 4).cells[i]? = some Cell.Wall) :=
  ⟨⟨4, by decide, rfl⟩, by decide, by decide, by decide⟩

/-- C1 witness: the amended theorem applied to the concrete 4×4 game whose
food was placed at index 5. -/
theorem C1_new_board_witness :
    (setFood (newPre 4 4 false) 5).snake.coordinates = [2 * 4 + 2] ∧
    (setFood (newPre 4 4 false) 5).score = 0 :=
  ⟨(C1_new_board_amended 4 4 false _ (by decide) (by decide) ⟨5, by decide, rfl⟩).2.1,
   (C1_new_board_amended 4 4 false _ (by decide) (by decide)
     ⟨5, by decide, rfl⟩).2.2.2.2.1⟩

/-! ### Projection lemmas for the update steps -/

@[simp] theorem withDir_cells (g : Game) (d : Direction) : (withDir g d).cells = g.cells := rfl

@[simp] theorem withDir_coords (g : Game) (d : Direction) :
    (withDir g d).snake.coordinates = g.snake.coordinates := rfl

@[simp] theorem withDir_direction (g : Game) (d : Direction) :
    (withDir g d).snake.direction = d := rfl

@[simp] theorem withDir_width (g : Game) (d : Direction) : (withDir g d).width = g.width := rfl

@[simp] theorem withDir_height (g : Game) (d : Direction) :
    (withDir g d).height = g.height := rfl

@[simp] theorem withDir_score (g : Game) (d : Direction) : (withDir g d).score = g.score := rfl

@[simp] theorem withDir_over (g : Game) (d : Direction) :
    (withDir g d).game_over = g.game_over := rfl

@[simp] theorem withDir_grow (g : Game) (d : Direction) :
    (withDir g d).grow_on_eat = g.grow_on_eat := rfl

@[simp] theorem nextCoords_withDir (g : Game) (d d' : Direction) :
    nextCoords (withDir g d) d' = nextCoords g d' := rfl

@[simp] theorem nextIdx_withDir (g : Game) (d d' : Direction) :
    nextIdx (withDir g d) d' = nextIdx g d' := rfl

@[simp] theorem targetCell_withDir (g : Game) (d d' : Direction) :
    targetCell (withDir g d) d' = targetCell g d' := rfl

@[simp] theorem tailIdx_withDir (g : Game) (d : Direction) :
    tailIdx (withDir g d) = tailIdx g := rfl

@[simp] theorem advance_cells (g : Game) (nidx : Nat) :
    (advanceGame g nidx).cells = g.cells.set nidx Cell.Snake := rfl

@[simp] theorem advance_coords (g : Game) (nidx : Nat) :
    (advanceGame g nidx).snake.coordinates = nidx :: g.snake.coordinates := rfl

@[simp] theorem advance_direction (g : Game) (nidx : Nat) :
    (advanceGame g nidx).snake.direction = g.snake.direction := rfl

@[simp] theorem advance_width (g : Game) (nidx : Nat) :
    (advanceGame g nidx).width = g.width := rfl

@[simp] theorem advance_height (g : Game) (nidx : Nat) :
    (advanceGame g nidx).height = g.height := rfl

@[simp] theorem advance_score (g : Game) (nidx : Nat) :
    (advanceGame g nidx).score = g.score := rfl

@[simp] theorem advance_over (g : Game) (nidx : Nat) :
    (advanceGame g nidx).game_over = g.game_over := rfl

@[simp] theorem advance_grow (g : Game) (nidx : Nat) :
    (advanceGame g nidx).grow_on_eat = g.grow_on_eat := rfl

@[simp] theorem popTail_cells (g : Game) (nidx : Nat) :
    (popTail g nidx).cells = (g.cells.set (tailIdx g) Cell.Plain).set nidx Cell.Snake := rfl

@[simp] theorem popTail_coords (g : Game) (nidx : Nat) :
    (popTail g nidx).snake.coordinates = g.snake.coordinates.dropLast := rfl

@[simp] theorem popTail_direction (g : Game) (nidx : Nat) :
    (popTail g nidx).snake.direction = g.snake.direction := rfl

@[simp] theorem popTail_width (g : Game) (nidx : Nat) : (popTail g nidx).width = g.width := rfl

@[simp] theorem popTail_height (g : Game) (nidx : Nat) :
    (popTail g nidx).height = g.height := rfl

@[simp] theorem popTail_score (g : Game) (nidx : Nat) : (popTail g nidx).score = g.score := rfl

@[simp] theorem popTail_over (g : Game) (nidx : Nat) :
    (popTail g nidx).game_over = g.game_over := rfl

@[simp] theorem popTail_grow (g : Game) (nidx : Nat) :
    (popTail g nidx).grow_on_eat = g.grow_on_eat := rfl

/-- `back().unwrap()` after a `push_front` is the same as before it, on a
    nonempty body. -/
theorem tailIdx_advance (g : Game) (nidx : Nat) (h : g.snake.coordinates ≠ []) :
    tailIdx (advanceGame g nidx) = tailIdx g := by
  rw [tailIdx, tailIdx, advance_coords, List.getLast?_cons,
    List.getLast?_eq_getLast _ h]
  rfl

/-- The target index is inside the board once the bounds check passes. -/
theorem nextIdx_lt (g : Game) (d : Direction) (hx : (nextCoords g d).1 < g.width)
    (hy : (nextCoords g d).2 < g.height) : nextIdx g d < g.width * g.height := by
  have h1 : (nextCoords g d).2 * g.width + (nextCoords g d).1 <
      ((nextCoords g d).2 + 1) * g.width := by
    rw [Nat.succ_mul]
    omega
  have h2 : ((nextCoords g d).2 + 1) * g.width ≤ g.height * g.width :=
    Nat.mul_le_mul_right _ hy
  exact lt_of_lt_of_le h1 (h2.trans (le_of_eq (Nat.mul_comm _ _)))

/-- The cell the head moves onto, as a `getElem?` fact. -/
theorem targetCell_getElem (g : Game) (d : Direction) (hlt : nextIdx g d < g.cells.length) :
    g.cells[nextIdx g d]? = some (targetCell g d) := by
  rw [targetCell, List.getD_eq_getElem?_getD, List.getElem?_eq_getElem hlt]
  rfl

/-! ### Case equations for `updatePre` -/

theorem updatePre_of_over (g : Game) (input : Direction) (h : g.game_over = true) :
    updatePre g input = (g, false) := by
  rw [updatePre, if_pos h]

theorem updatePre_oob (g : Game) (input : Direction) (hgo : g.game_over = false)
    (hb : g.width ≤ (nextCoords g (resolvedDir g input)).1 ∨
      g.height ≤ (nextCoords g (resolvedDir g input)).2) :
    updatePre g input = ({ withDir g (resolvedDir g input) with game_over := true }, false) := by
  rw [updatePre, if_neg (by simp [hgo]), updateMove, if_pos (by simpa using hb)]

theorem updatePre_collision (g : Game) (input : Direction) (hgo : g.game_over = false)
    (hx : (nextCoords g (resolvedDir g input)).1 < g.width)
    (hy : (nextCoords g (resolvedDir g input)).2 < g.height)
    (ht : targetCell g (resolvedDir g input) = Cell.Wall ∨
      targetCell g (resolvedDir g input) = Cell.Snake)
    (hne : nextIdx g (resolvedDir g input) ≠ tailIdx g) :
    updatePre g input = ({ withDir g (resolvedDir g input) with game_over := true }, false) := by
  rw [updatePre, if_neg (by simp [hgo]), updateMove,
    if_neg (by simp only [nextCoords_withDir, withDir_width, withDir_height]; omega),
    if_pos (by simpa using ⟨ht, hne⟩)]

theorem updatePre_proceed (g : Game) (input : Direction) (hgo : g.game_over = false)
    (hx : (nextCoords g (resolvedDir g input)).1 < g.width)
    (hy : (nextCoords g (resolvedDir g input)).2 < g.height)
    (hcol : ¬ ((targetCell g (resolvedDir g input) = Cell.Wall ∨
      targetCell g (resolvedDir g input) = Cell.Snake) ∧
      nextIdx g (resolvedDir g input) ≠ tailIdx g)) :
    updatePre g input =
      updateArrive
        (advanceGame (withDir g (resolvedDir g input)) (nextIdx g (resolvedDir g input)))
        (nextIdx g (resolvedDir g input))
        (targetCell g (resolvedDir g input) == Cell.Food) := by
  rw [updatePre, if_neg (by simp [hgo]), updateMove,
    if_neg (by simp only [nextCoords_withDir, withDir_width, withDir_height]; omega),
    if_neg (by simpa using hcol)]
  simp only [nextIdx_withDir, targetCell_withDir]

theorem updateArrive_food_grow (g : Game) (nidx : Nat) (hg : g.grow_on_eat = true) :
    updateArrive g nidx true = ({ g with score := g.score + 1 }, true) := by
  rw [updateArrive, if_pos rfl, if_pos hg]

theorem updateArrive_food_nogrow (g : Game) (nidx : Nat) (hg : g.grow_on_eat = false) :
    updateArrive g nidx true = ({ popTail g nidx with score := g.score + 1 }, true) := by
  rw [updateArrive, if_pos rfl, if_neg (by simp [hg])]

theorem updateArrive_plain (g : Game) (nidx : Nat) :
    updateArrive g nidx false = (popTail g nidx, false) := by
  rw [updateArrive, if_neg (by simp)]

/-! ### Direction resolution -/

theorem placeFood_snake_eq (g g' : Game) (h : PlaceFood g g') : g'.snake = g.snake := by
  obtain ⟨idx, -, rfl⟩ := h
  rfl

theorem placeFood_score_eq (g g' : Game) (h : PlaceFood g g') : g'.score = g.score := by
  obtain ⟨idx, -, rfl⟩ := h
  rfl

theorem updatePre_direction (g : Game) (input : Direction) (hgo : g.game_over = false) :
    (updatePre g input).1.snake.direction = resolvedDir g input := by
  rw [updatePre, if_neg (by simp [hgo]), updateMove]
  split
  · rfl
  · split
    · rfl
    · rw [updateArrive]
      split
      · split
        · rfl
        · rfl
      · rfl

theorem update_direction (g : Game) (input : Direction) (g' : Game)
    (hgo : g.game_over = false) (hu : Update g input g') :
    g'.snake.direction = resolvedDir g input := by
  rcases hu with ⟨-, hpf⟩ | ⟨-, heq⟩
  · rw [placeFood_snake_eq _ _ hpf]
    exact updatePre_direction g input hgo
  · rw [heq]
    exact updatePre_direction g input hgo

/-- C4: in `update`, a 180° reversal input on a body of length ≥ 2 is rejected
(the previous direction is kept and the head continues along it), while on a
single-segment body any concrete non-`None` input is accepted verbatim,
including the reversal. -/
theorem C4_reversal (g : Game) (input : Direction) (hgo : g.game_over = false) :
    (2 ≤ g.snake.coordinates.length → reversalPair g.snake.direction input →
      resolvedDir g input = g.snake.direction ∧
      ∀ g', Update g input g' → g'.snake.direction = g.snake.direction) ∧
    (g.snake.coordinates.length = 1 → input ≠ Direction.None →
      resolvedDir g input = input ∧
      ∀ g', Update g input g' → g'.snake.direction = input) := by
  constructor
  · intro hlen hrev
    have hgt : g.snake.coordinates.length > 1 := hlen
    have hres : resolvedDir g input = g.snake.direction := by
      rcases hrev with ⟨h1, h2⟩ | ⟨h1, h2⟩ | ⟨h1, h2⟩ | ⟨h1, h2⟩ <;>
        simp [resolvedDir, hgt, h1, h2]
    exact ⟨hres, fun g' hu => (update_direction g input g' hgo hu).trans hres⟩
  · intro hlen hinp
    have hngt : ¬ (g.snake.coordinates.length > 1) := by omega
    have hres : resolvedDir g input = input := by
      simp only [resolvedDir, if_neg hngt]
      rw [if_neg hinp]
    exact ⟨hres, fun g' hu => (update_direction g input g' hgo hu).trans hres⟩

/-- C4 witness: the theorem applied to `gRev` (length-2 snake moving Right,
input Left: kept Right) and to `gOffBoard` (length-1 snake moving Right,
input Left: reversed to Left). -/
theorem C4_reversal_witness :
    resolvedDir gRev Direction.Left = Direction.Right ∧
    (updatePre gRev Direction.Left).1.snake.direction = Direction.Right ∧
    resolvedDir gOffBoard Direction.Left = Direction.Left :=
  ⟨((C4_reversal gRev Direction.Left rfl).1 (by decide)
      (Or.inr (Or.inr (Or.inr ⟨rfl, rfl⟩)))).1,
   ((C4_reversal gRev Direction.Left rfl).1 (by decide)
      (Or.inr (Or.inr (Or.inr ⟨rfl, rfl⟩)))).2 _ (Or.inr ⟨by decide, rfl⟩),
   ((C4_reversal gOffBoard Direction.Left rfl).2 (by decide) (by decide)).1⟩

/-- C5: when the resolved move takes the head out of range (by unsigned
wraparound off column/row 0 or by reaching column ≥ width / row ≥ height),
`update` only sets `game_over`: no cell is mutated, no body segment is added
or removed, and the score is unchanged. -/
theorem C5_bounds (g : Game) (input : Direction) (hgo : g.game_over = false)
    (hb : g.width ≤ (nextCoords g (resolvedDir g input)).1 ∨
      g.height ≤ (nextCoords g (resolvedDir g input)).2) :
    ∀ g', Update g input g' →
      g'.game_over = true ∧ g'.cells = g.cells ∧
      g'.snake.coordinates = g.snake.coordinates ∧ g'.score = g.score := by
  intro g' hu
  have heq := updatePre_oob g input hgo hb
  rcases hu with ⟨htrue, -⟩ | ⟨-, hg'⟩
  · rw [heq] at htrue
    exact Bool.noConfusion htrue
  · rw [hg', heq]
    exact ⟨rfl, rfl, rfl, rfl⟩

/-- C5 witness: the theorem applied to `gOffBoard` stepping `Right` off
column 2 of a width-3 board. -/
theorem C5_bounds_witness :
    (updatePre gOffBoard Direction.Right).1.game_over = true ∧
    (updatePre gOffBoard Direction.Right).1.cells = gOffBoard.cells :=
  ⟨(C5_bounds gOffBoard Direction.Right rfl (Or.inl (by decide)) _
      (Or.inr ⟨by decide, rfl⟩)).1,
   (C5_bounds gOffBoard Direction.Right rfl (Or.inl (by decide)) _
      (Or.inr ⟨by decide, rfl⟩)).2.1⟩

/-! ### Collision handling -/

theorem tailIdx_mem (g : Game) (h : g.snake.coordinates ≠ []) :
    tailIdx g ∈ g.snake.coordinates := by
  rw [tailIdx, List.getLast?_eq_getLast _ h]
  exact List.getLast_mem h

/-- C3 (amended: besides `game_over`, the stored direction is also updated to
the resolved input direction in the collision branch): a resolved move onto
the snake's own tail cell proceeds normally without game over; a resolved
move onto any other Snake-occupied cell sets `game_over` and changes nothing
else except the stored direction. -/
theorem C3_self_collision_amended (g : Game) (input : Direction)
    (hgo : g.game_over = false)
    (hlen : 2 ≤ g.snake.coordinates.length)
    (hx : (nextCoords g (resolvedDir g input)).1 < g.width)
    (hy : (nextCoords g (resolvedDir g input)).2 < g.height)
    (hsnake : targetCell g (resolvedDir g input) = Cell.Snake) :
    (nextIdx g (resolvedDir g input) = tailIdx g →
      ∀ g', Update g input g' →
        g'.game_over = false ∧
        g'.snake.coordinates =
          nextIdx g (resolvedDir g input) :: g.snake.coordinates.dropLast ∧
        g'.score = g.score) ∧
    (nextIdx g (resolvedDir g input) ≠ tailIdx g →
      ∀ g', Update g input g' →
        g' = { withDir g (resolvedDir g input) with game_over := true }) := by
  have hne_nil : g.snake.coordinates ≠ [] := by
    intro h0
    rw [h0] at hlen
    simp at hlen
  constructor
  · intro htail g' hu
    have heq := updatePre_proceed g input hgo hx hy (fun hc => hc.2 htail)
    rw [hsnake] at heq
    rw [show (Cell.Snake == Cell.Food) = false from rfl, updateArrive_plain] at heq
    rcases hu with ⟨htrue, -⟩ | ⟨-, hg'⟩
    · rw [heq] at htrue
      exact Bool.noConfusion htrue
    · rw [hg', heq]
      refine ⟨hgo, ?_, rfl⟩
      simp only [popTail_coords, advance_coords, withDir_coords]
      exact List.dropLast_cons_of_ne_nil hne_nil
  · intro htail g' hu
    have heq := updatePre_collision g input hgo hx hy (Or.inr hsnake) htail
    rcases hu with ⟨htrue, -⟩ | ⟨-, hg'⟩
    · rw [heq] at htrue
      exact Bool.noConfusion htrue
    · rw [hg', heq]

/-- C3 counterexample: in `gMidBody` (direction Left) the input `Up` resolves
to `Up` and targets a non-tail body segment; `update` sets `game_over` but
also changes the stored direction from Left to Up, so it does not leave
"everything else" unchanged as the claim states. -/
theorem C3_self_collision_cex :
    gMidBody.game_over = false ∧
    2 ≤ gMidBody.snake.coordinates.length ∧
    targetCell gMidBody (resolvedDir gMidBody Direction.Up) = Cell.Snake ∧
    nextIdx gMidBody (resolvedDir gMidBody Direction.Up) ≠ tailIdx gMidBody ∧
    Update gMidBody Direction.Up ((updatePre gMidBody Direction.Up).1) ∧
    (updatePre gMidBody Direction.Up).1.game_over = true ∧
    (updatePre gMidBody Direction.Up).1.snake.direction ≠ gMidBody.snake.direction :=
  ⟨rfl, by decide, by decide, by decide, Or.inr ⟨by decide, rfl⟩, by decide, by decide⟩

/-- C3 witness: the amended theorem applied to `gLoop`, whose `Down` move
lands exactly on its own tail cell and proceeds. -/
theorem C3_self_collision_witness :
    (updatePre gLoop Direction.Down).1.game_over = false ∧
    (updatePre gLoop Direction.Down).1.snake.coordinates =
      nextIdx gLoop (resolvedDir gLoop Direction.Down) ::
        gLoop.snake.coordinates.dropLast :=
  ⟨((C3_self_collision_amended gLoop Direction.Down rfl (by decide) (by decide)
      (by decide) (by decide)).1 (by decide) _ (Or.inr ⟨by decide, rfl⟩)).1,
   ((C3_self_collision_amended gLoop Direction.Down rfl (by decide) (by decide)
      (by decide) (by decide)).1 (by decide) _ (Or.inr ⟨by decide, rfl⟩)).2.1⟩

/-- C9: under the snake-body invariant, a resolved move onto a Wall cell sets
`game_over` unconditionally: the tail exception cannot apply because the tail
cell is Snake-typed, never Wall-typed. -/
theorem C9_wall_collision (g : Game) (input : Direction)
    (hgo : g.game_over = false)
    (hne_nil : g.snake.coordinates ≠ [])
    (hinv : ∀ i ∈ g.snake.coordinates, g.cells[i]? = some Cell.Snake)
    (hx : (nextCoords g (resolvedDir g input)).1 < g.width)
    (hy : (nextCoords g (resolvedDir g input)).2 < g.height)
    (hwall : targetCell g (resolvedDir g input) = Cell.Wall) :
    ∀ g', Update g input g' → g'.game_over = true := by
  intro g' hu
  have htsnake := hinv _ (tailIdx_mem g hne_nil)
  have hne : nextIdx g (resolvedDir g input) ≠ tailIdx g := by
    intro heq
    have hlt : nextIdx g (resolvedDir g input) < g.cells.length := by
      rw [heq]
      exact (List.getElem?_eq_some.mp htsnake).1
    have hcell := targetCell_getElem g (resolvedDir g input) hlt
    rw [heq, htsnake, hwall] at hcell
    exact Cell.noConfusion (Option.some.inj hcell)
  have heq := updatePre_collision g input hgo hx hy (Or.inl hwall) hne
  rcases hu with ⟨htrue, -⟩ | ⟨-, hg'⟩
  · rw [heq] at htrue
    exact Bool.noConfusion htrue
  · rw [hg', heq]

/-- C9 witness: the freshly built 4×4 game's snake (at index 10) stepping
`Right` into the border wall at index 11. -/
theorem C9_wall_collision_witness :
    (updatePre (newPre 4 4 false) Direction.Right).1.game_over = true :=
  C9_wall_collision (newPre 4 4 false) Direction.Right rfl (by decide) (by decide)
    (by decide) (by decide) (by decide) _ (Or.inr ⟨by decide, rfl⟩)

/-! ### Feeding -/

/-- C2 (amended: in constant-length mode the former tail cell is reset to
Plain before the new Food is placed; in the final state it is Plain unless
the new Food was placed exactly there, in which case it is Food): eating
increments the score by 1 and places exactly one new Food on a Plain cell;
with `grow_on_eat` the body gains the new head and loses nothing, without it
the length is unchanged; the new head cell ends up Snake-typed. -/
theorem C2_eat_food_amended (g : Game) (input : Direction)
    (hgo : g.game_over = false)
    (hne_nil : g.snake.coordinates ≠ [])
    (hinv : ∀ i ∈ g.snake.coordinates, g.cells[i]? = some Cell.Snake)
    (hlen : g.cells.length = g.width * g.height)
    (hx : (nextCoords g (resolvedDir g input)).1 < g.width)
    (hy : (nextCoords g (resolvedDir g input)).2 < g.height)
    (hfood : targetCell g (resolvedDir g input) = Cell.Food) :
    ∀ g', Update g input g' →
      g'.score = g.score + 1 ∧
      PlaceFood (updatePre g input).1 g' ∧
      (g.grow_on_eat = true →
        g'.snake.coordinates = nextIdx g (resolvedDir g input) :: g.snake.coordinates) ∧
      (g.grow_on_eat = false →
        g'.snake.coordinates =
          nextIdx g (resolvedDir g input) :: g.snake.coordinates.dropLast ∧
        g'.snake.coordinates.length = g.snake.coordinates.length ∧
        (updatePre g input).1.cells[tailIdx g]? = some Cell.Plain ∧
        (g'.cells[tailIdx g]? = some Cell.Plain ∨ g'.cells[tailIdx g]? = some Cell.Food)) ∧
      g'.cells[nextIdx g (resolvedDir g input)]? = some Cell.Snake := by
  intro g' hu
  have hnlt : nextIdx g (resolvedDir g input) < g.cells.length := by
    rw [hlen]
    exact nextIdx_lt g (resolvedDir g input) hx hy
  have hcellF : g.cells[nextIdx g (resolvedDir g input)]? = some Cell.Food := by
    have h0 := targetCell_getElem g (resolvedDir g input) hnlt
    rw [hfood] at h0
    exact h0
  have hnotmem : nextIdx g (resolvedDir g input) ∉ g.snake.coordinates := by
    intro hmem
    rw [hinv _ hmem] at hcellF
    exact Cell.noConfusion (Option.some.inj hcellF)
  have htmem : tailIdx g ∈ g.snake.coordinates := tailIdx_mem g hne_nil
  have htlt : tailIdx g < g.cells.length := (List.getElem?_eq_some.mp (hinv _ htmem)).1
  have htne : tailIdx g ≠ nextIdx g (resolvedDir g input) := fun h => hnotmem (h ▸ htmem)
  have hcol : ¬ ((targetCell g (resolvedDir g input) = Cell.Wall ∨
      targetCell g (resolvedDir g input) = Cell.Snake) ∧
      nextIdx g (resolvedDir g input) ≠ tailIdx g) := by
    rintro ⟨hws | hws, -⟩ <;> rw [hfood] at hws <;> exact Cell.noConfusion hws
  have heq := updatePre_proceed g input hgo hx hy hcol
  rw [hfood, show (Cell.Food == Cell.Food) = true from rfl] at heq
  have htA : tailIdx (advanceGame (withDir g (resolvedDir g input))
      (nextIdx g (resolvedDir g input))) = tailIdx g :=
    (tailIdx_advance _ _ hne_nil).trans (tailIdx_withDir g _)
  cases hgrow : g.grow_on_eat with
  | true =>
    rw [updateArrive_food_grow _ _ (by simpa using hgrow)] at heq
    rcases hu with ⟨-, hpf⟩ | ⟨hfalse, -⟩
    · have hXcells : (updatePre g input).1.cells =
          g.cells.set (nextIdx g (resolvedDir g input)) Cell.Snake := by
        rw [heq]
        rfl
      have hXsnake : (updatePre g input).1.snake.coordinates =
          nextIdx g (resolvedDir g input) :: g.snake.coordinates := by
        rw [heq]
        rfl
      have hXhead : (updatePre g input).1.cells[nextIdx g (resolvedDir g input)]? =
          some Cell.Snake := by
        rw [hXcells]
        exact List.getElem?_set_self hnlt
      obtain ⟨j, hjP, rfl⟩ := hpf
      have hjne : j ≠ nextIdx g (resolvedDir g input) := by
        intro hj
        rw [hj, hXhead] at hjP
        exact Cell.noConfusion (Option.some.inj hjP)
      refine ⟨?_, ⟨j, hjP, rfl⟩, ?_, ?_, ?_⟩
      · rw [setFood_score, heq]
        rfl
      · intro _
        rw [setFood_snake, hXsnake]
      · intro hfalse
        exact Bool.noConfusion hfalse
      · rw [setFood_cells, List.getElem?_set_ne hjne]
        exact hXhead
    · rw [heq] at hfalse
      exact Bool.noConfusion hfalse
  | false =>
    rw [updateArrive_food_nogrow _ _ (by simpa using hgrow)] at heq
    rcases hu with ⟨-, hpf⟩ | ⟨hfalse, -⟩
    · have hXcells : (updatePre g input).1.cells =
          ((g.cells.set (nextIdx g (resolvedDir g input)) Cell.Snake).set (tailIdx g)
            Cell.Plain).set (nextIdx g (resolvedDir g input)) Cell.Snake := by
        rw [heq]
        show ((g.cells.set (nextIdx g (resolvedDir g input)) Cell.Snake).set
            (tailIdx (advanceGame (withDir g (resolvedDir g input))
              (nextIdx g (resolvedDir g input)))) Cell.Plain).set
            (nextIdx g (resolvedDir g input)) Cell.Snake = _
        rw [htA]
      have hXsnake : (updatePre g input).1.snake.coordinates =
          nextIdx g (resolvedDir g input) :: g.snake.coordinates.dropLast := by
        rw [heq]
        exact List.dropLast_cons_of_ne_nil hne_nil
      have hXlen : (updatePre g input).1.cells.length = g.cells.length := by
        rw [hXcells]
        simp [List.length_set]
      have hXtail : (updatePre g input).1.cells[tailIdx g]? = some Cell.Plain := by
        rw [hXcells, List.getElem?_set_ne (Ne.symm htne)]
        exact List.getElem?_set_self (by rw [List.length_set]; exact htlt)
      have hXhead : (updatePre g input).1.cells[nextIdx g (resolvedDir g input)]? =
          some Cell.Snake := by
        rw [hXcells]
        exact List.getElem?_set_self (by rw [List.length_set, List.length_set]; exact hnlt)
      obtain ⟨j, hjP, rfl⟩ := hpf
      have hjne : j ≠ nextIdx g (resolvedDir g input) := by
        intro hj
        rw [hj, hXhead] at hjP
        exact Cell.noConfusion (Option.some.inj hjP)
      refine ⟨?_, ⟨j, hjP, rfl⟩, ?_, ?_, ?_⟩
      · rw [setFood_score, heq]
        rfl
      · intro htrue
        exact Bool.noConfusion htrue
      · intro _
        refine ⟨?_, ?_, hXtail, ?_⟩
        · rw [setFood_snake, hXsnake]
        · rw [setFood_snake, hXsnake]
          simp only [List.length_cons, List.length_dropLast]
          have hpos : 0 < g.snake.coordinates.length := List.length_pos.mpr hne_nil
          omega
        · by_cases hjt : j = tailIdx g
          · right
            rw [setFood_cells, hjt]
            exact List.getElem?_set_self (by rw [hXlen]; exact htlt)
          · left
            rw [setFood_cells, List.getElem?_set_ne hjt]
            exact hXtail
      · rw [setFood_cells, List.getElem?_set_ne hjne]
        exact hXhead
    · rw [heq] at hfalse
      exact Bool.noConfusion hfalse

/-- C2 counterexample: in `gEat` (constant-length mode) the move eats the
Food at index 8; the freed tail cell 6 is the only Plain cell afterwards, so
`place_food` puts the new Food exactly there and the former tail cell ends up
Food, not Plain, in the returned state. -/
theorem C2_eat_food_cex :
    gEat.grow_on_eat = false ∧
    targetCell gEat (resolvedDir gEat Direction.Right) = Cell.Food ∧
    tailIdx gEat = 6 ∧
    Update gEat Direction.Right gEatAfter ∧
    gEatAfter.snake.coordinates.length = gEat.snake.coordinates.length ∧
    gEatAfter.cells[6]? = some Cell.Food ∧
    gEatAfter.cells[6]? ≠ some Cell.Plain :=
  ⟨rfl, by decide, by decide, Or.inl ⟨by decide, 6, by decide, rfl⟩, by decide,
   by decide, by decide⟩

/-- C2 witness: the amended theorem applied to `gEat` eating the Food at
index 8, with the new Food landing on the freed tail cell 6. -/
theorem C2_eat_food_witness :
    gEatAfter.score = gEat.score + 1 ∧
    gEatAfter.cells[nextIdx gEat (resolvedDir gEat Direction.Right)]? = some Cell.Snake :=
  ⟨(C2_eat_food_amended gEat Direction.Right rfl (by decide) (by decide) (by decide)
      (by decide) (by decide) (by decide) gEatAfter
      (Or.inl ⟨by decide, 6, by decide, rfl⟩)).1,
   (C2_eat_food_amended gEat Direction.Right rfl (by decide) (by decide) (by decide)
      (by decide) (by decide) (by decide) gEatAfter
      (Or.inl ⟨by decide, 6, by decide, rfl⟩)).2.2.2.2⟩

/-! ### The body invariant is preserved -/

theorem placeFood_inv (g g' : Game) (hpf : PlaceFood g g') (h : Inv g) : Inv g' := by
  obtain ⟨idx, hidx, rfl⟩ := hpf
  obtain ⟨hlen, hne, hnd, hmem⟩ := h
  refine ⟨by simpa using hlen, hne, hnd, ?_⟩
  intro i hi
  have hiS := hmem i hi
  have hine : idx ≠ i := by
    intro heq
    rw [heq, hiS] at hidx
    exact Cell.noConfusion (Option.some.inj hidx)
  rw [setFood_cells, List.getElem?_set_ne hine]
  exact hiS

theorem inv_withDir (g : Game) (d : Direction) (h : Inv g) : Inv (withDir g d) := h

theorem inv_advance (g : Game) (nidx : Nat) (h : Inv g) (hlt : nidx < g.cells.length)
    (hmem : nidx ∉ g.snake.coordinates) : Inv (advanceGame g nidx) := by
  obtain ⟨hlen, hne, hnd, hS⟩ := h
  refine ⟨by simpa using hlen, by simp, ?_, ?_⟩
  · simpa [List.nodup_cons] using ⟨hmem, hnd⟩
  · intro i hi
    rcases List.mem_cons.mp (by simpa using hi) with rfl | hi2
    · simpa using List.getElem?_set_self hlt
    · have hineq : i ≠ nidx := fun he => hmem (he ▸ hi2)
      rw [advance_cells, List.getElem?_set_ne (fun he => hineq he.symm)]
      exact hS i hi2

theorem getLast_not_mem_dropLast (l : List Nat) (h : l ≠ []) (hnd : l.Nodup) :
    l.getLast h ∉ l.dropLast := by
  intro hmem
  have hsplit := List.dropLast_append_getLast h
  rw [← hsplit] at hnd
  exact (List.nodup_append.mp hnd).2.2 hmem (List.mem_singleton_self _)

theorem tailIdx_eq_getLast (g : Game) (h : g.snake.coordinates ≠ []) :
    tailIdx g = g.snake.coordinates.getLast h := by
  rw [tailIdx, List.getLast?_eq_getLast _ h]
  rfl

theorem inv_popTail_advance (g : Game) (nidx : Nat) (h : Inv g)
    (hlt : nidx < g.cells.length)
    (hcase : nidx ∉ g.snake.coordinates ∨ nidx = tailIdx g) :
    Inv (popTail (advanceGame g nidx) nidx) := by
  obtain ⟨hlen, hne, hnd, hS⟩ := h
  have htmem : tailIdx g ∈ g.snake.coordinates := tailIdx_mem g hne
  have htA : tailIdx (advanceGame g nidx) = tailIdx g := tailIdx_advance g nidx hne
  have htdrop : tailIdx g ∉ g.snake.coordinates.dropLast := by
    rw [tailIdx_eq_getLast g hne]
    exact getLast_not_mem_dropLast _ hne hnd
  have hcoords : (popTail (advanceGame g nidx) nidx).snake.coordinates =
      nidx :: g.snake.coordinates.dropLast := by
    simp only [popTail_coords, advance_coords]
    exact List.dropLast_cons_of_ne_nil hne
  have hndrop : nidx ∉ g.snake.coordinates.dropLast := by
    rcases hcase with hc | hc
    · exact fun hm => hc (List.mem_of_mem_dropLast hm)
    · rw [hc]
      exact htdrop
  have hcells : (popTail (advanceGame g nidx) nidx).cells =
      ((g.cells.set nidx Cell.Snake).set (tailIdx g) Cell.Plain).set nidx Cell.Snake := by
    simp only [popTail_cells, advance_cells, htA]
  refine ⟨?_, ?_, ?_, ?_⟩
  · rw [hcells]
    simpa [List.length_set] using hlen
  · rw [hcoords]
    simp
  · rw [hcoords]
    exact List.nodup_cons.mpr ⟨hndrop, List.Nodup.sublist (List.dropLast_sublist _) hnd⟩
  · intro i hi
    rw [hcoords] at hi
    rcases List.mem_cons.mp hi with rfl | hi2
    · rw [hcells]
      exact List.getElem?_set_self (by simp only [List.length_set]; exact hlt)
    · have h1 : i ≠ nidx := fun he => hndrop (he ▸ hi2)
      have h2 : i ≠ tailIdx g := fun he => htdrop (he ▸ hi2)
      rw [hcells, List.getElem?_set_ne (fun he => h1 he.symm),
        List.getElem?_set_ne (fun he => h2 he.symm),
        List.getElem?_set_ne (fun he => h1 he.symm)]
      exact hS i (List.mem_of_mem_dropLast hi2)

theorem updatePre_inv (g : Game) (input : Direction) (h : Inv g) :
    Inv (updatePre g input).1 := by
  cases hgov : g.game_over with
  | true =>
    rw [updatePre_of_over g input hgov]
    exact h
  | false =>
    by_cases hb : g.width ≤ (nextCoords g (resolvedDir g input)).1 ∨
        g.height ≤ (nextCoords g (resolvedDir g input)).2
    · rw [updatePre_oob g input hgov hb]
      exact h
    · push_neg at hb
      obtain ⟨hx, hy⟩ := hb
      have hlt : nextIdx g (resolvedDir g input) < g.cells.length := by
        rw [h.1]
        exact nextIdx_lt g _ hx hy
      have htc := targetCell_getElem g (resolvedDir g input) hlt
      by_cases hcol : (targetCell g (resolvedDir g input) = Cell.Wall ∨
          targetCell g (resolvedDir g input) = Cell.Snake) ∧
          nextIdx g (resolvedDir g input) ≠ tailIdx g
      · rw [updatePre_collision g input hgov hx hy hcol.1 hcol.2]
        exact h
      · have heq := updatePre_proceed g input hgov hx hy hcol
        by_cases hf : targetCell g (resolvedDir g input) = Cell.Food
        · have hnm : nextIdx g (resolvedDir g input) ∉ g.snake.coordinates := by
            intro hm
            have hsn := h.2.2.2 _ hm
            rw [hsn, hf] at htc
            exact Cell.noConfusion (Option.some.inj htc)
          rw [heq, hf, show (Cell.Food == Cell.Food) = true from rfl, updateArrive,
            if_pos rfl]
          by_cases hgr : g.grow_on_eat = true
          · rw [if_pos (show (advanceGame (withDir g (resolvedDir g input))
                (nextIdx g (resolvedDir g input))).grow_on_eat = true by simpa using hgr)]
            exact inv_advance _ _ (inv_withDir g _ h) hlt hnm
          · rw [if_neg (show ¬ (advanceGame (withDir g (resolvedDir g input))
                (nextIdx g (resolvedDir g input))).grow_on_eat = true by simpa using hgr)]
            exact inv_popTail_advance _ _ (inv_withDir g _ h) hlt (Or.inl hnm)
        · rw [heq, show (targetCell g (resolvedDir g input) == Cell.Food) = false from
              beq_eq_false_iff_ne.mpr hf, updateArrive_plain]
          have hcase : nextIdx g (resolvedDir g input) ∉ g.snake.coordinates ∨
              nextIdx g (resolvedDir g input) = tailIdx g := by
            by_cases hmem : nextIdx g (resolvedDir g input) ∈ g.snake.coordinates
            · right
              by_contra hne2
              apply hcol
              refine ⟨Or.inr ?_, hne2⟩
              have hsn := h.2.2.2 _ hmem
              rw [hsn] at htc
              exact (Option.some.inj htc).symm
            · exact Or.inl hmem
          exact inv_popTail_advance _ _ (inv_withDir g _ h) hlt hcase

theorem update_inv (g g' : Game) (input : Direction) (h : Inv g) (hu : Update g input g') :
    Inv g' := by
  rcases hu with ⟨-, hpf⟩ | ⟨-, rfl⟩
  · exact placeFood_inv _ _ hpf (updatePre_inv g input h)
  · exact updatePre_inv g input h

theorem newPre_inv (w h : Nat) (grow : Bool) (hw : 3 ≤ w) (hh : 3 ≤ h) :
    Inv (newPre w h grow) := by
  have hlt : 2 * w + 2 < w * h := by
    have h1 : 2 * w + 3 ≤ 3 * w := by omega
    have h2 : 3 * w ≤ h * w := Nat.mul_le_mul_right w hh
    have h3 : h * w = w * h := Nat.mul_comm h w
    omega
  refine ⟨newPre_cells_length w h grow, by simp [newPre], by simp [newPre], ?_⟩
  intro i hi
  have hieq : i = 2 * w + 2 := by simpa [newPre] using hi
  subst hieq
  show ((setSides (setTopBottom _ w h) w h).set (2 * w + 2) Cell.Snake)[2 * w + 2]? = _
  refine List.getElem?_set_self ?_
  rw [setSides_length, setTopBottom_length, List.length_replicate]
  exact hlt

/-! ### Decoder invariants -/

theorem takeDigits_snd_length (cs : List Char) : (takeDigits cs).2.length ≤ cs.length := by
  induction cs with
  | nil => simp [takeDigits]
  | cons d ds ih =>
    by_cases hd : d.isDigit <;> simp [takeDigits, hd] <;> omega

theorem emitRun_stinv (ct : Cell) (n : Nat) : ∀ st st', StInv st →
    emitRun ct n st = Except.ok st' → StInv st' := by
  induction n with
  | zero =>
    intro st st' h he
    simp only [emitRun] at he
    cases he
    exact h
  | succ n ih =>
    intro st st' h he
    simp only [emitRun] at he
    by_cases hsn : ct = Cell.Snake
    · rw [if_pos hsn] at he
      by_cases hsf : st.snakeFound = true
      · rw [if_pos hsf] at he
        exact Except.noConfusion he
      · have hsf' : st.snakeFound = false := by
          revert hsf
          cases st.snakeFound <;> simp
        rw [if_neg hsf] at he
        refine ih
          { cells := st.cells ++ [ct]
            snakeCoords := st.cells.length :: st.snakeCoords
            snakeFound := true }
          st' ⟨fun h0 => Bool.noConfusion h0, fun _ => ?_⟩ he
        refine ⟨st.cells.length, ?_, ?_⟩
        · show st.cells.length :: st.snakeCoords = _
          rw [h.1 hsf']
        · show (st.cells ++ [ct])[st.cells.length]? = _
          rw [hsn]
          exact List.getElem?_concat_length _ _
    · rw [if_neg hsn] at he
      refine ih { st with cells := st.cells ++ [ct] } st' ⟨h.1, fun hf => ?_⟩ he
      obtain ⟨j, hj, hcell⟩ := h.2 hf
      refine ⟨j, hj, ?_⟩
      obtain ⟨hjlt, -⟩ := List.getElem?_eq_some.mp hcell
      show (st.cells ++ [ct])[j]? = _
      rw [List.getElem?_append_left hjlt]
      exact hcell

theorem processChars_stinv :
    ∀ (n : Nat) (cs : List Char), cs.length ≤ n → ∀ st st', StInv st →
      processChars st cs = Except.ok st' → StInv st' := by
  intro n
  induction n with
  | zero =>
    intro cs hcs st st' h hp
    have hnil : cs = [] := List.length_eq_zero.mp (Nat.le_zero.mp hcs)
    subst hnil
    rw [processChars.eq_def] at hp
    dsimp only at hp
    cases hp
    exact h
  | succ n ih =>
    intro cs hcs st st' h hp
    cases cs with
    | nil =>
      rw [processChars.eq_def] at hp
      dsimp only at hp
      cases hp
      exact h
    | cons c rest =>
      have hrest : rest.length ≤ n := by
        simp only [List.length_cons] at hcs
        omega
      rw [processChars.eq_def] at hp
      dsimp only at hp
      by_cases ha : isAlphabetic c
      · rw [if_pos ha] at hp
        split at hp
        · cases hem : emitRun Cell.Wall (runCount (takeDigits rest).1) st with
          | error e =>
            rw [hem] at hp
            exact Except.noConfusion hp
          | ok st1 =>
            rw [hem] at hp
            exact ih _ (le_trans (takeDigits_snd_length rest) hrest) _ _
              (emitRun_stinv _ _ _ _ h hem) hp
        · cases hem : emitRun Cell.Plain (runCount (takeDigits rest).1) st with
          | error e =>
            rw [hem] at hp
            exact Except.noConfusion hp
          | ok st1 =>
            rw [hem] at hp
            exact ih _ (le_trans (takeDigits_snd_length rest) hrest) _ _
              (emitRun_stinv _ _ _ _ h hem) hp
        · cases hem : emitRun Cell.Snake (runCount (takeDigits rest).1) st with
          | error e =>
            rw [hem] at hp
            exact Except.noConfusion hp
          | ok st1 =>
            rw [hem] at hp
            exact ih _ (le_trans (takeDigits_snd_length rest) hrest) _ _
              (emitRun_stinv _ _ _ _ h hem) hp
        · exact Except.noConfusion hp
      · rw [if_neg ha] at hp
        exact ih rest hrest st st' h hp

theorem processParts_stinv : ∀ (ps : List (List Char)) (st st' : DecodeSt), StInv st →
    processParts st ps = Except.ok st' → StInv st' := by
  intro ps
  induction ps with
  | nil =>
    intro st st' h hp
    simp only [processParts] at hp
    cases hp
    exact h
  | cons p rest ih =>
    intro st st' h hp
    simp only [processParts] at hp
    cases hpc : processChars st p with
    | error e =>
      rw [hpc] at hp
      exact Except.noConfusion hp
    | ok st1 =>
      rw [hpc] at hp
      exact ih _ _ (processChars_stinv p.length p le_rfl st st1 h hpc) hp

theorem fromStringPre_inv (s : String) (grow : Bool) (g0 : Game)
    (hok : fromStringPre s grow = Except.ok g0) : Inv g0 := by
  simp only [fromStringPre] at hok
  split at hok
  · exact Except.noConfusion hok
  · split at hok
    · split at hok
      · split at hok
        · exact Except.noConfusion hok
        · split at hok
          · exact Except.noConfusion hok
          · split at hok
            · exact Except.noConfusion hok
            · rename_i height hh xw width hw xe st hparts
              split at hok
              · exact Except.noConfusion hok
              · split at hok
                · exact Except.noConfusion hok
                · rename_i hlen hfound
                  cases hok
                  have hst : StInv st :=
                    processParts_stinv _ _ _ ⟨fun _ => rfl, fun h0 => Bool.noConfusion h0⟩
                      hparts
                  have hlen' : st.cells.length = width * height := by
                    omega
                  have hfound' : st.snakeFound = true := by
                    revert hfound
                    cases st.snakeFound <;> simp
                  obtain ⟨j, hj, hcell⟩ := hst.2 hfound'
                  refine ⟨by simpa using hlen', ?_, ?_, ?_⟩
                  · show st.snakeCoords ≠ []
                    rw [hj]
                    simp
                  · show st.snakeCoords.Nodup
                    rw [hj]
                    simp
                  · intro i hi
                    have : i = j := by
                      rw [hj] at hi
                      simpa using hi
                    subst this
                    exact hcell
      · exact Except.noConfusion hok
    · exact Except.noConfusion hok

/-! ### The reachability invariant -/

theorem reachable_inv (g : Game) (hr : Reachable g) : Inv g := by
  induction hr with
  | fromNew w h grow g hw hh hnew => exact placeFood_inv _ _ hnew (newPre_inv w h grow hw hh)
  | fromDecode s grow g hfs =>
    obtain ⟨g0, hok, hpf⟩ := hfs
    exact placeFood_inv _ _ hpf (fromStringPre_inv s grow g0 hok)
  | step g input g' hr hu ih => exact update_inv _ _ _ ih hu

/-- C6: in every state reachable from `new` (with 3 ≤ width, height) or a
successful `from_string` decode by any sequence of updates, every body index
is marked `Snake` on the board and the body holds no duplicate indices. -/
theorem C6_reachable_snake_cells (g : Game) (hr : Reachable g) :
    g.snake.coordinates.Nodup ∧
    ∀ i ∈ g.snake.coordinates, g.cells[i]? = some Cell.Snake :=
  ⟨(reachable_inv g hr).2.2.1, (reachable_inv g hr).2.2.2⟩

/-- C6 witness: the theorem applied to a freshly built 5×4 game whose food
was placed at index 6. -/
theorem C6_reachable_witness :
    (setFood (newPre 5 4 true) 6).snake.coordinates.Nodup ∧
    ∀ i ∈ (setFood (newPre 5 4 true) 6).snake.coordinates,
      (setFood (newPre 5 4 true) 6).cells[i]? = some Cell.Snake :=
  C6_reachable_snake_cells _ (Reachable.fromNew 5 4 true _ (by decide) (by decide)
    ⟨6, by decide, rfl⟩)

/-! ### Decoder error taxonomy and token quirks -/

/-- C7 (code-bug evidence): `from_string("")` does not produce the dedicated
empty-input error. Rust's `split('|')` yields `[""]` on the empty string, so
`parts.is_empty()` is never true and the empty input falls through to the
`starts_with('B')` check, returning "Invalid dimension format" — the same
error as a first segment not starting with `B` — instead of the distinct
"Empty string" error of the dead branch. -/
theorem C7_empty_input_error :
    fromStringPre "" true = Except.error "Invalid dimension format" ∧
    fromStringPre "" false = Except.error "Invalid dimension format" ∧
    ("Invalid dimension format" : String) ≠ "Empty string" ∧
    splitOn '|' ("" : String).toList = [[]] :=
  ⟨rfl, rfl, by decide, rfl⟩

/-- C8: a letter token with no directly following decimal digits has
run-length 0 (`parse().unwrap_or(0)` on the empty digit run), so it emits no
cell at all: decoding is the same as for the letter followed by `0`, and the
same as skipping the token entirely. -/
theorem C8_bare_letter_zero (st : DecodeSt) (c : Char) (rest : List Char)
    (hc : c = 'W' ∨ c = 'E' ∨ c = 'S')
    (hnd : (rest.headD ' ').isDigit = false) :
    processChars st (c :: rest) = processChars st rest ∧
    processChars st (c :: '0' :: rest) = processChars st rest := by
  have htd : takeDigits rest = ([], rest) := by
    cases rest with
    | nil => rfl
    | cons d t =>
      simp only [List.headD] at hnd
      simp [takeDigits, hnd]
  have htd0 : takeDigits ('0' :: rest) = (['0'], rest) := by
    rw [takeDigits]
    simp [htd]
  constructor
  · rcases hc with rfl | rfl | rfl <;>
      (rw [processChars.eq_def]
       dsimp only
       rw [if_pos (by decide), htd]
       rfl)
  · rcases hc with rfl | rfl | rfl <;>
      (rw [processChars.eq_def]
       dsimp only
       rw [if_pos (by decide), htd0]
       rfl)

/-- C8 witness: decoding a bare `W` contributes the same cells as `W0` and as
nothing at all. -/
theorem C8_bare_letter_witness :
    processChars { cells := [], snakeCoords := [], snakeFound := false } ['W', 'S'] =
      processChars { cells := [], snakeCoords := [], snakeFound := false } ['S'] ∧
    processChars { cells := [], snakeCoords := [], snakeFound := false } ['W', '0', 'S'] =
      processChars { cells := [], snakeCoords := [], snakeFound := false } ['S'] :=
  ⟨(C8_bare_letter_zero _ 'W' ['S'] (Or.inl rfl) (by decide)).1,
   (C8_bare_letter_zero _ 'W' ['S'] (Or.inl rfl) (by decide)).2⟩

/-- C10: the cell-token loop silently skips every non-alphabetic character
(no error, no cells emitted), and only an alphabetic character outside
`{W, E, S}` produces the unknown-letter decode failure. -/
theorem C10_skip_nonalpha (st : DecodeSt) (c : Char) (rest : List Char) :
    (isAlphabetic c = false → processChars st (c :: rest) = processChars st rest) ∧
    (isAlphabetic c = true → c ≠ 'W' → c ≠ 'E' → c ≠ 'S' →
      processChars st (c :: rest) = Except.error ("Unknown char " ++ c.toString)) := by
  constructor
  · intro hna
    rw [processChars.eq_def]
    dsimp only
    rw [if_neg (by rw [hna]; simp)]
  · intro ha hW hE hS
    rw [processChars.eq_def]
    dsimp only
    rw [if_pos ha]
    split
    · exact absurd rfl hW
    · exact absurd rfl hE
    · exact absurd rfl hS
    · rfl

set_option maxRecDepth 8192 in
/-- C10 witness: a space is skipped without error or emission; the alphabetic
characters `X` (ASCII) and `é` (non-ASCII Unicode letter) both hit the
unknown-letter failure. -/
theorem C10_skip_nonalpha_witness :
    processChars { cells := [], snakeCoords := [], snakeFound := false } [' ', 'E'] =
      processChars { cells := [], snakeCoords := [], snakeFound := false } ['E'] ∧
    processChars { cells := [], snakeCoords := [], snakeFound := false } ['X'] =
      Except.error ("Unknown char " ++ 'X'.toString) ∧
    processChars { cells := [], snakeCoords := [], snakeFound := false } ['é'] =
      Except.error ("Unknown char " ++ 'é'.toString) :=
  ⟨(C10_skip_nonalpha _ ' ' ['E']).1 (by decide),
   (C10_skip_nonalpha _ 'X' []).2 (by decide) (by decide) (by decide) (by decide),
   (C10_skip_nonalpha _ 'é' []).2 (by decide) (by decide) (by decide) (by decide)⟩

end SnakeGame
